import Mathlib

/-!
Shallow embedding of the ideaforge generation pipeline
(`backend/app/services/ideation.py` and the deterministic leaf modules it
delegates to: `feature_detection.py`, `stack_selection.py`,
`tool_profiles.py`, `implementation_plan.py`, and the key structure of
`prompt_templates.py` / `doc_templates.py` / `tool_prompts.py`).

Modelling conventions:
* Python `str` is Lean `String`; `len` is `String.length` (code points).
* Python exceptions are `Except` errors; every `try/except` of the source
  becomes a `match` on an `Except` value.
* The three LLM calls (idea refinement, domain analysis, product
  generation) and the provider-singleton construction are external
  collaborators: a run of the pipeline is parameterised by a `Collab`
  record giving each call's outcome (raised / returned text), exactly the
  information the source's `try/except` blocks branch on.
* JSON values decoded by `json.loads` are the inductive `Json` below;
  `Json.parse` models `json.loads` (whitespace framing,
  strings/numbers/literals/arrays/objects, duplicate object keys keep the
  last value).
* The literal natural-language text of the big prompt/doc templates is
  out of the pipeline's scope (only the key structure of the returned
  dictionaries matters to it), so each leaf template function is a field
  of a `Tpl` record with the same argument list as in the source; the
  dictionary/list structure built around those leaves is embedded
  literally.  `implementation_plan.py` is embedded with its literal text.
-/

namespace IdeaForge

/-! ### Python string primitives -/

/-- The whitespace characters `str.strip()` removes (ASCII part of
Python's definition). -/
def pyIsSpace (c : Char) : Bool :=
  c = ' ' || c = '\t' || c = '\n' || c = '\r' || c = '\x0b' || c = '\x0c'

/-- Remove trailing whitespace from a character list. -/
def stripTrailing : List Char → List Char
  | [] => []
  | c :: cs =>
    match stripTrailing cs with
    | [] => if pyIsSpace c then [] else [c]
    | rest => c :: rest

/-- Python `str.strip()` on a character list: drop leading whitespace,
then trailing whitespace. -/
def pyStripList (l : List Char) : List Char :=
  stripTrailing (l.dropWhile pyIsSpace)

/-- Python `str.strip()`. -/
def pyStrip (s : String) : String :=
  String.mk (pyStripList s.data)

/-- Whether `sep` is a prefix of `l`, returning the remainder. -/
def dropPrefixChars : List Char → List Char → Option (List Char)
  | [], l => some l
  | _ :: _, [] => none
  | a :: as, b :: bs => if a = b then dropPrefixChars as bs else none

/-- Split on the leftmost, non-overlapping occurrences of a non-empty
separator (Python `s.split(sep)` semantics); `fuel` bounds the scan. -/
def splitChars (sep : List Char) : Nat → List Char → List Char →
    List (List Char)
  | _, acc, [] => [acc.reverse]
  | 0, acc, rest => [acc.reverse ++ rest]
  | fuel + 1, acc, c :: cs =>
    match dropPrefixChars sep (c :: cs) with
    | some rest => acc.reverse :: splitChars sep fuel [] rest
    | none => splitChars sep fuel (c :: acc) cs

/-- Python `s.split(sep)` with an explicit (non-empty) separator. -/
def pySplit (s sep : String) : List String :=
  (splitChars sep.data (s.data.length + 1) [] s.data).map String.mk

/-- Python `needle in hay` substring containment (for non-empty needles:
the split yields more than one piece exactly when the needle occurs). -/
def pyIn (needle hay : String) : Bool :=
  (pySplit hay needle).length ≠ 1

/-- Python `s.lower()` (the texts involved are ASCII). -/
def pyLower (s : String) : String := String.mk (s.data.map Char.toLower)

/-- Python string comparison: lexicographic on code points. -/
def charListLe : List Char → List Char → Bool
  | [], _ => true
  | _ :: _, [] => false
  | a :: as, b :: bs =>
    if a.toNat < b.toNat then true
    else if b.toNat < a.toNat then false
    else charListLe as bs

def strLe (a b : String) : Bool := charListLe a.data b.data

def insertSorted (x : String) : List String → List String
  | [] => [x]
  | y :: ys => if strLe x y then x :: y :: ys else y :: insertSorted x ys

/-- Python `sorted` on a list of strings (insertion sort). -/
def pySorted (l : List String) : List String := l.foldr insertSorted []

/-- Decimal digits of a natural number (`fuel`-bounded). -/
def natToStrAux : Nat → Nat → List Char
  | 0, _ => []
  | fuel + 1, n =>
    if n < 10 then [Char.ofNat (48 + n)]
    else natToStrAux fuel (n / 10) ++ [Char.ofNat (48 + n % 10)]

/-- Python `str(n)` for a natural number. -/
def natToStr (n : Nat) : String := String.mk (natToStrAux (n + 1) n)

/-- `sep.join(l)`. -/
def joinSep (sep : String) : List String → String
  | [] => ""
  | [x] => x
  | x :: xs => x ++ sep ++ joinSep sep xs

/-- A Python `set` of flags is modelled as a duplicate-free list; only
membership, size and a sorted view are ever consumed.  Union keeps the
left operand's elements and appends the right operand's new ones. -/
def pySetUnion (a b : List String) : List String :=
  a ++ b.filter (fun x => !a.contains x)

lemma stripTrailing_idem (l : List Char) :
    stripTrailing (stripTrailing l) = stripTrailing l := by
  induction l with
  | nil => rfl
  | cons c cs ih =>
    rw [stripTrailing]
    rcases h : stripTrailing cs with _ | ⟨a, t⟩
    · by_cases hc : pyIsSpace c
      · simp [hc, stripTrailing]
      · simp [hc, stripTrailing]
    · rw [stripTrailing]
      have : stripTrailing (a :: t) = a :: t := by rw [← h, ih, h]
      rw [this]

lemma stripTrailing_head (c : Char) (cs : List Char) :
    stripTrailing (c :: cs) = [] ∨ ∃ t, stripTrailing (c :: cs) = c :: t := by
  rw [stripTrailing]
  rcases stripTrailing cs with _ | ⟨a, t⟩
  · by_cases hc : pyIsSpace c
    · left; simp [hc]
    · right; exact ⟨[], by simp [hc]⟩
  · right; exact ⟨a :: t, rfl⟩

lemma dropWhile_head_false (p : Char → Bool) :
    ∀ (l : List Char) a t, List.dropWhile p l = a :: t → p a = false := by
  intro l
  induction l with
  | nil => intro a t h; simp [List.dropWhile] at h
  | cons b u ih =>
    intro a t h
    rw [List.dropWhile] at h
    by_cases hb : p b
    · rw [hb] at h; exact ih a t h
    · rw [Bool.eq_false_iff.mpr hb] at h
      simp at h
      rw [← h.1]
      exact Bool.eq_false_iff.mpr hb

lemma pyStrip_idem (s : String) : pyStrip (pyStrip s) = pyStrip s := by
  unfold pyStrip
  congr 1
  show pyStripList (pyStripList s.data) = pyStripList s.data
  unfold pyStripList
  set A := s.data.dropWhile pyIsSpace with hA
  have h1 : (stripTrailing A).dropWhile pyIsSpace = stripTrailing A := by
    rcases hAc : A with _ | ⟨a, t⟩
    · simp [stripTrailing]
    · have ha : pyIsSpace a = false := dropWhile_head_false pyIsSpace s.data a t (hA ▸ hAc)
      rcases stripTrailing_head a t with h | ⟨u, h⟩
      · rw [h]; rfl
      · rw [h, List.dropWhile]
        rw [ha]
  rw [h1, stripTrailing_idem]

/-! ### JSON values (`json.loads` results) -/

/-- A decoded JSON value.  Numbers keep their raw token (no claim inspects
a numeric value, only a number's presence matters). -/
inductive Json where
  | null : Json
  | bool : Bool → Json
  | num : String → Json
  | str : String → Json
  | arr : List Json → Json
  | obj : List (String × Json) → Json

/-! ### Python operations on decoded JSON values -/

/-- Python `key in v`.  Key membership for dicts, element equality for
lists (`str == element`, false for non-strings), substring test for
strings; `TypeError` for the other values. -/
def pyContains (v : Json) (key : String) : Except Unit Bool :=
  match v with
  | .obj fs => .ok (fs.any (fun p => p.1 == key))
  | .arr es => .ok (es.any (fun e => match e with | .str s => key == s | _ => false))
  | .str s => .ok (pyIn key s)
  | _ => .error ()

/-- Python `len(v)`: characters of a string, elements of a list, entries
of a dict; `TypeError` otherwise. -/
def pyLen (v : Json) : Except Unit Nat :=
  match v with
  | .str s => .ok s.length
  | .arr es => .ok es.length
  | .obj fs => .ok fs.length
  | _ => .error ()

/-- Whether a raw JSON number token is Python-falsy (equals zero). -/
def pyFalsyNum (tok : String) : Bool :=
  (tok.data.takeWhile (fun c => !(c = 'e' || c = 'E'))).all
    (fun c => !c.isDigit || c = '0')

/-- Python truth-value testing: `not v` is true exactly on these. -/
def pyFalsy (v : Json) : Bool :=
  match v with
  | .null => true
  | .bool b => !b
  | .num t => pyFalsyNum t
  | .str s => s.data.isEmpty
  | .arr es => es.isEmpty
  | .obj fs => fs.isEmpty

/-- Python `d.get(k)` on a dict (fields carry unique keys in decoded
values): the first binding of `k`. -/
def jGet (fs : List (String × Json)) (k : String) : Option Json :=
  (fs.find? (fun p => p.1 == k)).map (·.2)

/-- Python `d.get(k, default)`. -/
def jGetD (fs : List (String × Json)) (k : String) (dflt : Json) : Json :=
  (jGet fs k).getD dflt

/-- Python `d[k] = v`: replace the first binding in place, else append. -/
def pyDictSet (fs : List (String × Json)) (k : String) (v : Json) :
    List (String × Json) :=
  if fs.any (fun p => p.1 == k) then
    fs.map (fun p => if p.1 = k then (k, v) else p)
  else fs ++ [(k, v)]

/-- Python `v[k]` for a string key: dict lookup (`KeyError` when absent),
`TypeError` on any other value. -/
def pySubscript (v : Json) (k : String) : Except Unit Json :=
  match v with
  | .obj fs =>
    match jGet fs k with
    | some x => .ok x
    | none => .error ()
  | _ => .error ()

/-- Python `for e in v`: list elements, string characters, dict keys;
`TypeError` otherwise. -/
def pyIter (v : Json) : Except Unit (List Json) :=
  match v with
  | .arr es => .ok es
  | .str s => .ok (s.data.map (fun c => .str (String.mk [c])))
  | .obj fs => .ok (fs.map (fun p => .str p.1))
  | _ => .error ()

/-! ### `json.loads` (the parser behind `_extract_json`) -/

/-- The whitespace `json.loads` skips between tokens. -/
def jsonWs (c : Char) : Bool := c = ' ' || c = '\t' || c = '\n' || c = '\r'

def skipWs (cs : List Char) : List Char := cs.dropWhile jsonWs

def hexVal (c : Char) : Option Nat :=
  if '0' ≤ c ∧ c ≤ '9' then some (c.toNat - '0'.toNat)
  else if 'a' ≤ c ∧ c ≤ 'f' then some (c.toNat - 'a'.toNat + 10)
  else if 'A' ≤ c ∧ c ≤ 'F' then some (c.toNat - 'A'.toNat + 10)
  else none

/-- Scan a JSON string body (the opening quote already consumed):
escapes decoded, raw control characters rejected (strict mode). -/
def parseJStr : Nat → List Char → List Char → Option (String × List Char)
  | 0, _, _ => none
  | _ + 1, _, [] => none
  | fuel + 1, acc, c :: rest =>
    if c = '"' then some (String.mk acc.reverse, rest)
    else if c = '\\' then
      match rest with
      | [] => none
      | e :: rest2 =>
        if e = '"' then parseJStr fuel ('"' :: acc) rest2
        else if e = '\\' then parseJStr fuel ('\\' :: acc) rest2
        else if e = '/' then parseJStr fuel ('/' :: acc) rest2
        else if e = 'b' then parseJStr fuel ('\x08' :: acc) rest2
        else if e = 'f' then parseJStr fuel ('\x0c' :: acc) rest2
        else if e = 'n' then parseJStr fuel ('\n' :: acc) rest2
        else if e = 'r' then parseJStr fuel ('\r' :: acc) rest2
        else if e = 't' then parseJStr fuel ('\t' :: acc) rest2
        else if e = 'u' then
          match rest2 with
          | h1 :: h2 :: h3 :: h4 :: rest3 =>
            match hexVal h1, hexVal h2, hexVal h3, hexVal h4 with
            | some v1, some v2, some v3, some v4 =>
              parseJStr fuel
                (Char.ofNat (((v1 * 16 + v2) * 16 + v3) * 16 + v4) :: acc) rest3
            | _, _, _, _ => none
          | _ => none
        else none
    else if c.toNat < 32 then none
    else parseJStr fuel (c :: acc) rest

def isDigit19 (c : Char) : Bool := '1' ≤ c && c ≤ '9'

/-- Scan a JSON number token (sign already included in `cs`), returning
the raw token.  Grammar: `-? (0 | [1-9][0-9]*) (. [0-9]+)? ([eE][+-]?[0-9]+)?`. -/
def parseJNum (cs : List Char) : Option (String × List Char) :=
  let (sign, cs1) :=
    match cs with
    | '-' :: rest => (['-'], rest)
    | _ => (([] : List Char), cs)
  let intPart :=
    match cs1 with
    | '0' :: rest => some (['0'], rest)
    | c :: _ =>
      if isDigit19 c then
        some (cs1.takeWhile Char.isDigit, cs1.dropWhile Char.isDigit)
      else none
    | [] => none
  match intPart with
  | none => none
  | some (ip, cs2) =>
    let (fp, cs3) :=
      match cs2 with
      | '.' :: rest =>
        let ds := rest.takeWhile Char.isDigit
        if ds.isEmpty then (([] : List Char), cs2)
        else ('.' :: ds, rest.dropWhile Char.isDigit)
      | _ => (([] : List Char), cs2)
    let (ep, cs4) :=
      match cs3 with
      | e :: rest =>
        if e = 'e' ∨ e = 'E' then
          let (sgn, rest2) :=
            match rest with
            | '+' :: r => (['+'], r)
            | '-' :: r => (['-'], r)
            | _ => (([] : List Char), rest)
          let ds := rest2.takeWhile Char.isDigit
          if ds.isEmpty then (([] : List Char), cs3)
          else (e :: (sgn ++ ds), rest2.dropWhile Char.isDigit)
        else (([] : List Char), cs3)
      | [] => (([] : List Char), cs3)
    some (String.mk (sign ++ ip ++ fp ++ ep), cs4)

mutual

/-- Parse one JSON value at the head of `cs` (leading whitespace already
skipped). -/
def parseValue : Nat → List Char → Option (Json × List Char)
  | 0, _ => none
  | fuel + 1, cs =>
    match cs with
    | [] => none
    | c :: rest =>
      if c = '{' then
        parseObjItems fuel [] (skipWs rest)
      else if c = '[' then
        parseArrItems fuel [] (skipWs rest)
      else if c = '"' then
        match parseJStr (rest.length + 1) [] rest with
        | some (s, rest2) => some (.str s, rest2)
        | none => none
      else if c = 't' then
        match cs with
        | 't' :: 'r' :: 'u' :: 'e' :: rest2 => some (.bool true, rest2)
        | _ => none
      else if c = 'f' then
        match cs with
        | 'f' :: 'a' :: 'l' :: 's' :: 'e' :: rest2 => some (.bool false, rest2)
        | _ => none
      else if c = 'n' then
        match cs with
        | 'n' :: 'u' :: 'l' :: 'l' :: rest2 => some (.null, rest2)
        | _ => none
      else if c = 'N' then
        match cs with
        | 'N' :: 'a' :: 'N' :: rest2 => some (.num "NaN", rest2)
        | _ => none
      else if c = 'I' then
        match cs with
        | 'I' :: 'n' :: 'f' :: 'i' :: 'n' :: 'i' :: 't' :: 'y' :: rest2 =>
          some (.num "Infinity", rest2)
        | _ => none
      else if c = '-' then
        match cs with
        | '-' :: 'I' :: 'n' :: 'f' :: 'i' :: 'n' :: 'i' :: 't' :: 'y' :: rest2 =>
          some (.num "-Infinity", rest2)
        | _ =>
          match parseJNum cs with
          | some (tok, rest2) => some (.num tok, rest2)
          | none => none
      else
        match parseJNum cs with
        | some (tok, rest2) => some (.num tok, rest2)
        | none => none

/-- Parse array items after `[` (whitespace skipped); `acc` holds parsed
items in reverse. -/
def parseArrItems : Nat → List Json → List Char → Option (Json × List Char)
  | 0, _, _ => none
  | _ + 1, acc, ']' :: rest =>
    if acc.isEmpty then some (.arr [], rest) else none
  | fuel + 1, acc, cs =>
    match parseValue fuel cs with
    | none => none
    | some (v, rest) =>
      match skipWs rest with
      | ',' :: rest2 => parseArrItems fuel (v :: acc) (skipWs rest2)
      | ']' :: rest2 => some (.arr (v :: acc).reverse, rest2)
      | _ => none

/-- Parse object members after `{` (whitespace skipped); duplicate keys
keep the last value, as in `json.loads`. -/
def parseObjItems : Nat → List (String × Json) → List Char →
    Option (Json × List Char)
  | 0, _, _ => none
  | _ + 1, acc, '}' :: rest =>
    if acc.isEmpty then some (.obj [], rest) else none
  | fuel + 1, acc, cs =>
    match cs with
    | '"' :: rest =>
      match parseJStr (rest.length + 1) [] rest with
      | none => none
      | some (k, rest2) =>
        match skipWs rest2 with
        | ':' :: rest3 =>
          match parseValue fuel (skipWs rest3) with
          | none => none
          | some (v, rest4) =>
            match skipWs rest4 with
            | ',' :: rest5 => parseObjItems fuel (pyDictSet acc k v) (skipWs rest5)
            | '}' :: rest5 => some (.obj (pyDictSet acc k v), rest5)
            | _ => none
        | _ => none
    | _ => none

end

/-- Model of `json.loads`: whole-input parse with whitespace framing. -/
def Json.parse (s : String) : Option Json :=
  match parseValue (s.length + 1) (skipWs s.data) with
  | some (v, rest) => if skipWs rest = [] then some v else none
  | none => none

/-- Index of the first `{` and of the last `}` of the text, when the
latter comes after the former: the span matched by the greedy
`re.search(r"\x7b.*\x7d", text, re.DOTALL)`. -/
def braceSpan (s : String) : Option String :=
  let cs := s.data
  match cs.findIdx? (· == '{'), cs.reverse.findIdx? (· == '}') with
  | some i, some jr =>
    let j := cs.length - 1 - jr
    if i < j then some (String.mk ((cs.drop i).take (j - i + 1))) else none
  | _, _ => none

/-- `_extract_json` (ideation.py): strict `json.loads`, falling back to
the greedy brace-span extraction; any remaining failure is the raised
`ValueError`/`JSONDecodeError`. -/
def extract_json (text : String) : Except Unit Json :=
  match Json.parse text with
  | some v => .ok v
  | none =>
    match braceSpan text with
    | none => .error ()
    | some sub =>
      match Json.parse sub with
      | some v => .ok v
      | none => .error ()

/-! ### `feature_detection.py` -/

/-- The fixed keyword table `FEATURE_KEYWORDS`. -/
def FEATURE_KEYWORDS : List (String × List String) := [
  ("realtime", [
    "realtime", "real-time", "chat", "live", "stream", "websocket",
    "live update", "collaborative", "multiplayer", "presence",
    "instant messaging", "socket"]),
  ("payments", [
    "marketplace", "payments", "billing", "subscription", "checkout",
    "stripe", "pricing", "plan", "tier", "invoice", "e-commerce",
    "shopping cart", "order", "purchase", "monetization", "paywall"]),
  ("ai", [
    "recommend", " ai ", "machine learning", " ml ", "llm", "assistant",
    "agent", "gpt", "claude", "embeddings", "vector", "rag", "chatbot",
    "generation", "prediction", "classification", "nlp", "sentiment",
    "ai-powered", "intelligent", "smart suggest"]),
  ("mobile", [
    "mobile", "ios", "android", "push notification", "responsive",
    "pwa", "react native", "flutter", "native app", "app store"]),
  ("analytics", [
    "analytics", "dashboard", "reporting", "metrics", "kpi",
    "visualization", "chart", "graph", "tracking", "insights",
    "data visualization"]),
  ("file_upload", [
    "upload", "file", "image", "video", "media", "attachment",
    "storage", "s3", "cdn", "gallery", "document", "photo",
    "avatar", "asset"]),
  ("notifications", [
    "notification", "email", "sms", "alert", "webhook",
    "in-app notification", "digest", "reminder", "push"]),
  ("search", [
    "search", "filter", "facet", "elasticsearch", "full-text",
    "autocomplete", "typeahead", "fuzzy", "explore", "discover"]),
  ("social", [
    "social", "profile", "follow", "feed", "comment", "like",
    "share", "community", "forum", "post", "thread", "reaction",
    "mention", "friend", "connection"]),
  ("i18n", [
    "i18n", "internationalization", "localization", "multi-language",
    "translation", "locale", "rtl", "multilingual"]),
  ("multi_tenancy", [
    "multi-tenant", "tenant", "organization", "workspace",
    "team", "saas", "white-label", "subdomain", "org"]),
  ("scheduling", [
    "schedule", "calendar", "booking", "appointment", "cron",
    "recurring", "reminder", "event", "availability", "time slot"]),
  ("admin_panel", [
    "admin", "backoffice", "cms", "content management",
    "moderation", "management panel", "back office", "internal tool"]),
  ("auth_advanced", [
    "sso", "oauth", "2fa", "mfa", "rbac", "role", "permission",
    "access control", "saml", "ldap", "single sign-on"]),
  ("geolocation", [
    "map", "location", "geo", "gps", "address", "routing",
    "nearby", "distance", "place", "coordinate"])]

/-- `detect_features(text)`: pad the lowered text with boundary
whitespace, then collect every flag one of whose keywords occurs (the
table's keys are distinct, so the result is duplicate-free). -/
def detect_features (text : String) : List String :=
  let lower := " " ++ pyLower text ++ " "
  (FEATURE_KEYWORDS.filter (fun fk => fk.2.any (fun kw => pyIn kw lower))).map
    Prod.fst

/-- The fixed flag vocabulary: the keys of `FEATURE_KEYWORDS`. -/
def FLAG_VOCABULARY : List String := FEATURE_KEYWORDS.map Prod.fst

/-! ### `stack_selection.py` -/

structure StackChoice where
  frontend : String
  frontend_ui : String
  backend : String
  database : String
  cache : String
  infra : String
  auth : String
  ai : String
  search : String
  file_storage : String
  email : String
  monitoring : String
  testing : String
deriving Repr, DecidableEq

/-- `StackChoice.to_dict` (`dataclasses.asdict`, field order). -/
def StackChoice.to_dict (s : StackChoice) : List (String × String) := [
  ("frontend", s.frontend),
  ("frontend_ui", s.frontend_ui),
  ("backend", s.backend),
  ("database", s.database),
  ("cache", s.cache),
  ("infra", s.infra),
  ("auth", s.auth),
  ("ai", s.ai),
  ("search", s.search),
  ("file_storage", s.file_storage),
  ("email", s.email),
  ("monitoring", s.monitoring),
  ("testing", s.testing)]

/-- `choose_stack(flags)`. -/
def choose_stack (flags : List String) : StackChoice :=
  let frontend :=
    if flags.contains "mobile" then
      "Next.js 14 (App Router) + Tailwind CSS 3" ++ " (+ React Native for mobile)"
    else "Next.js 14 (App Router) + Tailwind CSS 3"
  let frontend_ui := "shadcn/ui + Radix primitives"
  let backend := "FastAPI 0.115 + Uvicorn (Python 3.11+)"
  let database0 := "PostgreSQL 16 + SQLAlchemy 2.0 (async) + Alembic"
  let database1 := if flags.contains "ai" then database0 ++ " + pgvector" else database0
  let database := if flags.contains "analytics" then database1 ++ " + TimescaleDB" else database1
  let cache :=
    if flags.contains "realtime" ∨ flags.contains "scheduling" then "Redis 7 (pub/sub + caching)"
    else if 3 ≤ flags.length then "Redis 7 (caching layer)"
    else "None"
  let search :=
    if flags.contains "search" then
      if flags.contains "analytics" ∨ 6 ≤ flags.length then
        "Elasticsearch 8 (advanced search + analytics)"
      else "Meilisearch (lightweight full-text search)"
    else "None"
  let file_storage :=
    if flags.contains "file_upload" then "AWS S3 (via boto3) + CloudFront CDN"
    else if flags.contains "social" then "Cloudflare R2 (avatars + media)"
    else "None"
  let email :=
    if flags.contains "notifications" ∨ flags.contains "payments" then "Resend (transactional email)"
    else if flags.contains "auth_advanced" ∨ flags.contains "scheduling" then "Resend (transactional email)"
    else "None"
  let infra :=
    if flags.contains "realtime" then "Docker + Render (persistent WebSocket support)"
    else if 5 ≤ flags.length then "Docker + AWS ECS (scalable)"
    else "Docker + Fly.io (simple deploy)"
  let auth :=
    if flags.contains "auth_advanced" then "Auth.js (NextAuth) + custom RBAC middleware"
    else if flags.contains "payments" ∨ flags.contains "multi_tenancy" then
      "Auth.js (NextAuth) with JWT sessions"
    else "Clerk (managed auth)"
  let ai :=
    if flags.contains "ai" then "OpenAI GPT-4.1 + Embeddings API + LangChain"
    else "OpenAI GPT-4.1 (via openai SDK)"
  let monitoring :=
    if flags.contains "analytics" ∨ 5 ≤ flags.length then
      "Sentry (errors) + Prometheus + Grafana + structlog"
    else "Sentry (errors) + Structured logging (structlog)"
  let testing :=
    "pytest + httpx (backend) · Playwright (E2E) · Jest + React Testing Library (frontend)"
  { frontend := frontend, frontend_ui := frontend_ui, backend := backend,
    database := database, cache := cache, infra := infra, auth := auth,
    ai := ai, search := search, file_storage := file_storage, email := email,
    monitoring := monitoring, testing := testing }

/-! ### `tool_profiles.py` -/

structure ToolProfile where
  slug : String
  name : String
  description : String
  stack : Option StackChoice
  prompt_style : String
  has_own_deployment : Bool
  has_own_auth : Bool
deriving Repr, DecidableEq

def LOVABLE : ToolProfile :=
  { slug := "lovable", name := "Lovable",
    description := "React + Vite + Tailwind + Supabase",
    stack := some
      { frontend := "React 18 + Vite 5 + Tailwind CSS 3",
        frontend_ui := "shadcn/ui + Radix primitives",
        backend := "Supabase Edge Functions (Deno/TypeScript)",
        database := "Supabase PostgreSQL (with Row-Level Security)",
        cache := "None",
        infra := "Lovable hosting (auto-deployed)",
        auth := "Supabase Auth (email/password + OAuth)",
        ai := "OpenAI GPT-4.1 (via Supabase Edge Function)",
        search := "None",
        file_storage := "Supabase Storage",
        email := "Supabase Edge Function + Resend",
        monitoring := "Sentry (frontend only)",
        testing := "Vitest + React Testing Library" },
    prompt_style := "descriptive",
    has_own_deployment := true, has_own_auth := true }

def REPLIT : ToolProfile :=
  { slug := "replit", name := "Replit Agent",
    description := "React + Node.js/Express + PostgreSQL",
    stack := some
      { frontend := "React 18 + Vite 5 + Tailwind CSS 3",
        frontend_ui := "shadcn/ui + Radix primitives",
        backend := "Node.js 20 + Express 4",
        database := "PostgreSQL 16 + Prisma ORM",
        cache := "None",
        infra := "Replit Deployments (auto-hosted)",
        auth := "Express sessions + bcrypt + JWT",
        ai := "OpenAI GPT-4.1 (via openai npm package)",
        search := "None",
        file_storage := "Replit Object Storage",
        email := "Resend (npm package)",
        monitoring := "Console logging + Sentry",
        testing := "Jest + Supertest (backend) · Vitest + RTL (frontend)" },
    prompt_style := "conversational",
    has_own_deployment := true, has_own_auth := false }

def BASE44 : ToolProfile :=
  { slug := "base44", name := "Base44",
    description := "No-code data-first AI app builder",
    stack := some
      { frontend := "Base44 auto-generated UI",
        frontend_ui := "Base44 built-in components",
        backend := "Base44 platform (managed)",
        database := "Base44 built-in database",
        cache := "None",
        infra := "Base44 hosting (managed)",
        auth := "Base44 built-in auth",
        ai := "Base44 AI (Claude Sonnet 4 / Gemini 2.5 Pro)",
        search := "Base44 built-in search",
        file_storage := "Base44 file storage",
        email := "Base44 integrations (SendGrid / Resend)",
        monitoring := "Base44 dashboard",
        testing := "Manual testing via Base44 preview" },
    prompt_style := "entity_focused",
    has_own_deployment := true, has_own_auth := true }

/-- `_CLAUDE_CODE`: the one profile whose stack is filled at runtime. -/
def CLAUDE_CODE : ToolProfile :=
  { slug := "claude_code", name := "Claude Code",
    description := "FastAPI + Next.js (full code generation)",
    stack := none,
    prompt_style := "detailed_code",
    has_own_deployment := false, has_own_auth := false }

/-- The module-level `TOOL_PROFILES` table. -/
def TOOL_PROFILES : List (String × ToolProfile) :=
  [("lovable", LOVABLE), ("replit", REPLIT), ("base44", BASE44),
   ("claude_code", CLAUDE_CODE)]

/-- `get_tool_profile(slug)`: `None` for a falsy or unknown identifier. -/
def get_tool_profile (slug : Option String) : Option ToolProfile :=
  match slug with
  | none => none
  | some s =>
    if s = "" then none
    else (TOOL_PROFILES.find? (fun p => p.1 == s)).map (·.2)

/-! ### `implementation_plan.py` (embedded with its literal text) -/

/-- Python `str(v)` as used in f-string interpolation.  The container
cases abbreviate `repr` (no claim evaluates them). -/
def pyStr (v : Json) : String :=
  match v with
  | .null => "None"
  | .bool true => "True"
  | .bool false => "False"
  | .num t => t
  | .str s => s
  | .arr _ => "[...]"
  | .obj _ => "\x7b...\x7d"

/-- `", ".join(e[key] for e in v)` where each member must be a string
(`join` raises `TypeError` otherwise, subscripting may raise). -/
def joinAttr (key : String) (v : Json) : Except Unit String := do
  let items ← pyIter v
  let strs ← items.mapM (fun e => do
    match (← pySubscript e key) with
    | .str s => pure s
    | _ => throw ())
  pure (String.intercalate ", " strs)

/-- `_entity_names(domain)`. -/
def entity_names (domain : Option Json) : Except Unit String :=
  match domain with
  | none => .ok ""
  | some d =>
    if pyFalsy d then .ok ""
    else do
      if !(← pyContains d "entities") then pure ""
      else joinAttr "name" (← pySubscript d "entities")

/-- `_page_names(domain)`. -/
def page_names (domain : Option Json) : Except Unit String :=
  match domain with
  | none => .ok ""
  | some d =>
    if pyFalsy d then .ok ""
    else do
      if !(← pyContains d "pages") then pure ""
      else joinAttr "name" (← pySubscript d "pages")

/-- `s.split(sep)[0].strip()`. -/
def splitStrip0 (s sep : String) : String := pyStrip ((pySplit s sep).headD "")

/-- `_mvp_plan(stack, domain)`: the short 7-step flat plan. -/
def mvp_plan (stack : StackChoice) (domain : Option Json) :
    Except Unit (List String) := do
  let entities ← entity_names domain
  let models_detail := if entities ≠ "" then " Models: " ++ entities ++ "." else ""
  let pages ← page_names domain
  let pages_detail := if pages ≠ "" then " Pages: " ++ pages ++ "." else ""
  pure [
    "1. Set up monorepo with " ++ splitStrip0 stack.backend "+" ++
      " backend and " ++ splitStrip0 stack.frontend "+" ++ " frontend.",
    "2. Create database schema (" ++ splitStrip0 stack.database "+" ++
      ") and run initial Alembic migration." ++ models_detail,
    "3. Build backend: CRUD API routes, Pydantic schemas, basic JWT auth (register + login)." ++
      models_detail,
    "4. Build frontend: login, register, and main dashboard pages with API integration." ++
      pages_detail,
    "5. Add basic styling (Tailwind), responsive layout, and navigation.",
    "6. Test locally — verify end-to-end auth flow and core feature.",
    "7. Deploy: Dockerize both services and deploy to " ++
      (if pyIn "(" stack.infra then splitStrip0 stack.infra "(" else stack.infra) ++ "."]

/-- Python `v[:6]` (list or string slice; `TypeError` otherwise). -/
def pySlice6 (v : Json) : Except Unit Json :=
  match v with
  | .arr es => .ok (.arr (es.take 6))
  | .str s => .ok (.str (String.mk (s.data.take 6)))
  | _ => .error ()

/-- The `endpoint_detail` computation of `build_implementation_plan`. -/
def endpoint_detail (domain : Option Json) : Except Unit String :=
  match domain with
  | none => .ok ""
  | some d =>
    if pyFalsy d then .ok ""
    else do
      if !(← pyContains d "api_endpoints") then pure ""
      else
        let eps ← pySubscript d "api_endpoints"
        let first6 ← pySlice6 eps
        let items ← pyIter first6
        let parts ← items.mapM (fun e => do
          let m ← pySubscript e "method"
          let p ← pySubscript e "path"
          pure (pyStr m ++ " " ++ pyStr p))
        let summary := joinSep ", " parts
        let n ← pyLen eps
        let summary :=
          if 6 < n then summary ++ ", and " ++ natToStr (n - 6) ++ " more"
          else summary
        pure (" Endpoints: " ++ summary ++ ".")

/-- The Phase 4 feature steps with their running `4.{step}` counter. -/
def feature_steps (flags : List String) (stack : StackChoice) : List String :=
  let mk : Nat → String → String := fun n t => "4." ++ natToStr n ++ "  " ++ t
  let checks : List (String × (Nat → String)) := [
    ("realtime", fun n => mk n "Implement real-time layer: WebSocket endpoint, connection manager, Redis pub/sub, and frontend useWebSocket hook with auto-reconnect."),
    ("payments", fun n => mk n "Integrate Stripe: create customers, checkout sessions, webhook handler (subscription lifecycle), pricing page, and billing portal."),
    ("ai", fun n => mk n "Build AI integration: LLM service with streaming, prompt manager, RAG pipeline (if applicable), and frontend streaming UI component."),
    ("file_upload", fun n => mk n "Build file upload system: presigned URL flow, image processing (thumbnails, WebP), drag-and-drop UI with progress indicator."),
    ("search", fun n => mk n ("Implement search: set up " ++ stack.search ++ ", indexing pipeline, search API with facets, and frontend search bar with autocomplete.")),
    ("notifications", fun n => mk n ("Build notification system: in-app notifications, email via " ++ stack.email ++ ", notification preferences, and real-time delivery.")),
    ("social", fun n => mk n "Build social features: user profiles, activity feed, comments with threading, reactions, follow/unfollow, and content moderation."),
    ("scheduling", fun n => mk n "Build scheduling system: calendar view, availability management, booking flow with conflict detection, and email reminders."),
    ("analytics", fun n => mk n "Build analytics dashboard: aggregation queries, Recharts visualisations (line, bar, pie), stat cards, and date range filtering."),
    ("admin_panel", fun n => mk n "Build admin panel: user management, content moderation, system configuration, and activity audit log."),
    ("multi_tenancy", fun n => mk n "Implement multi-tenancy: organisation model, tenant-scoped queries, invite flow, and role-based access within organisations."),
    ("auth_advanced", fun n => mk n "Implement advanced auth: OAuth social login (Google + GitHub), 2FA/MFA with TOTP, RBAC with fine-grained permissions."),
    ("i18n", fun n => mk n "Add internationalisation: next-intl setup, translation files, locale switcher, RTL support, and date/number formatting."),
    ("geolocation", fun n => mk n "Implement geolocation features: map component (Mapbox/Leaflet), address autocomplete, proximity search, and distance calculation."),
    ("mobile", fun n => mk n "Build mobile-optimised API: composite endpoints, cursor pagination, push notifications (FCM), and sync endpoint for offline-first.")]
  (checks.foldl
    (fun (acc : List String × Nat) fk =>
      if fk.1 ∈ flags then (acc.1 ++ [fk.2 acc.2], acc.2 + 1) else acc)
    ([], 1)).1

/-- `_lovable_plan(flags, stack, domain, mode)`. -/
def lovable_plan (flags : List String) (_stack : StackChoice)
    (domain : Option Json) (mode : String) : Except Unit (List String) := do
  let entities ← entity_names domain
  let pages ← page_names domain
  if mode = "mvp" then
    pure [
      "1. Set up new Lovable project and configure Supabase connection.",
      "2. Design Supabase database tables and RLS policies." ++
        (if entities ≠ "" then " Tables: " ++ entities ++ "." else ""),
      "3. Configure Supabase Auth (email/password sign-up).",
      "4. Build frontend pages with React + shadcn/ui." ++
        (if pages ≠ "" then " Pages: " ++ pages ++ "." else ""),
      "5. Connect frontend to Supabase client for data fetching and auth.",
      "6. Test end-to-end: auth flow and core feature.",
      "7. Deploy via Lovable's built-in hosting."]
  else
    let plan := [
      "Phase 1 — Supabase Setup",
      "1.1  Create new Lovable project and connect Supabase instance.",
      "1.2  Design and create all database tables in Supabase SQL Editor." ++
        (if entities ≠ "" then " Tables: " ++ entities ++ "." else ""),
      "1.3  Write Row-Level Security (RLS) policies for every table.",
      "1.4  Configure Supabase Auth: email/password, OAuth providers if needed.",
      "1.5  Set up Supabase Storage buckets with RLS (if file uploads needed).",
      "Phase 2 — Core Frontend",
      "2.1  Set up React + Vite + Tailwind + shadcn/ui project structure.",
      "2.2  Build auth pages: Login, Register with Supabase Auth integration.",
      "2.3  Build authenticated layout: sidebar, header, auth guard.",
      "2.4  Build core application pages." ++
        (if pages ≠ "" then " Pages: " ++ pages ++ "." else ""),
      "2.5  Implement data fetching with Supabase client (`.from().select()`).",
      "2.6  Add forms with react-hook-form + zod validation.",
      "Phase 3 — Features & Polish"]
    let mk : Nat → String → String := fun n t => "3." ++ natToStr n ++ "  " ++ t
    let (plan, step) :=
      if flags.contains "realtime" then
        (plan ++ [mk 1 "Enable Supabase Realtime on relevant tables for live updates."], 2)
      else (plan, 1)
    let (plan, step) :=
      if flags.contains "payments" then
        (plan ++ [mk step "Create Supabase Edge Function for Stripe checkout and webhooks."], step + 1)
      else (plan, step)
    let (plan, step) :=
      if flags.contains "ai" then
        (plan ++ [mk step "Create Supabase Edge Function for OpenAI API integration."], step + 1)
      else (plan, step)
    let (plan, step) :=
      if flags.contains "file_upload" then
        (plan ++ [mk step "Implement file uploads with Supabase Storage."], step + 1)
      else (plan, step)
    let (plan, step) :=
      if step = 1 then
        (plan ++ [mk 1 "Add toast notifications, loading states, error handling."], 2)
      else (plan, step)
    let plan := plan ++ [mk step "Polish UI: responsive design, empty states, error boundaries."]
    pure (plan ++ [
      "Phase 4 — Testing & Launch",
      "4.1  Test all user workflows end-to-end.",
      "4.2  Verify RLS policies block unauthorized access.",
      "4.3  Deploy via Lovable's built-in hosting."])

/-- `_replit_plan(flags, stack, domain, mode)`. -/
def replit_plan (flags : List String) (_stack : StackChoice)
    (domain : Option Json) (mode : String) : Except Unit (List String) := do
  let entities ← entity_names domain
  let pages ← page_names domain
  if mode = "mvp" then
    pure [
      "1. Set up Replit project with Node.js + Express backend and React + Vite frontend.",
      "2. Define Prisma schema and run initial migration." ++
        (if entities ≠ "" then " Models: " ++ entities ++ "." else ""),
      "3. Build Express API routes: JWT auth (register + login) and CRUD endpoints.",
      "4. Build React frontend: auth pages, dashboard, and core feature." ++
        (if pages ≠ "" then " Pages: " ++ pages ++ "." else ""),
      "5. Connect frontend to backend API with fetch wrapper.",
      "6. Test locally — verify auth flow and core feature.",
      "7. Deploy via Replit Deployments."]
  else
    let plan := [
      "Phase 1 — Foundation",
      "1.1  Initialise Replit project with Express backend and React + Vite frontend.",
      "1.2  Define Prisma schema with all models and run `prisma migrate dev`." ++
        (if entities ≠ "" then " Models: " ++ entities ++ "." else ""),
      "1.3  Set up environment variables in Replit Secrets.",
      "Phase 2 — Backend",
      "2.1  Build Express app: CORS, JSON parsing, error handling middleware.",
      "2.2  Implement JWT auth: register (bcrypt hash), login (verify + return JWT).",
      "2.3  Build CRUD routes for each domain entity." ++
        (if entities ≠ "" then " Entities: " ++ entities ++ "." else ""),
      "2.4  Add input validation (express-validator or zod).",
      "2.5  Add pagination support (?page=1&limit=20).",
      "Phase 3 — Frontend",
      "3.1  Set up React + Vite + Tailwind + shadcn/ui.",
      "3.2  Build auth pages (login, register) and AuthContext.",
      "3.3  Build authenticated layout: sidebar, header.",
      "3.4  Build application pages." ++
        (if pages ≠ "" then " Pages: " ++ pages ++ "." else ""),
      "3.5  Implement API client with auth header injection.",
      "3.6  Add forms, loading states, error handling, toast notifications."]
    let mk : Nat → String → String := fun n t => "4." ++ natToStr n ++ "  " ++ t
    let (fsteps, step) :=
      if flags.contains "realtime" then ([mk 1 "Add Socket.io for real-time features."], 2)
      else ([], 1)
    let (fsteps, step) :=
      if flags.contains "payments" then
        (fsteps ++ [mk step "Integrate Stripe: checkout sessions, webhook handler."], step + 1)
      else (fsteps, step)
    let (fsteps, _step) :=
      if flags.contains "ai" then
        (fsteps ++ [mk step "Integrate OpenAI npm package for AI features."], step + 1)
      else (fsteps, step)
    let plan :=
      if fsteps ≠ [] then plan ++ ["Phase 4 — Feature Integration"] ++ fsteps
      else plan
    let ph := if fsteps ≠ [] then "5" else "4"
    pure (plan ++ [
      "Phase " ++ ph ++ " — Quality & Launch",
      ph ++ ".1  Test all user flows end-to-end.",
      ph ++ ".2  Add basic error handling and input validation.",
      ph ++ ".3  Deploy via Replit Deployments."])

/-- `_base44_plan(flags, stack, domain, mode)`. -/
def base44_plan (_flags : List String) (_stack : StackChoice)
    (domain : Option Json) (mode : String) : Except Unit (List String) := do
  let entities ← entity_names domain
  let pages ← page_names domain
  if mode = "mvp" then
    pure [
      "1. Define core entities in Base44." ++
        (if entities ≠ "" then " Entities: " ++ entities ++ "." else ""),
      "2. Configure entity fields, types, and relations.",
      "3. Create pages for each entity." ++
        (if pages ≠ "" then " Pages: " ++ pages ++ "." else ""),
      "4. Set up authentication and user roles.",
      "5. Test the app in Base44 preview.",
      "6. Publish via Base44 hosting."]
  else
    pure [
      "Phase 1 — Entity Design",
      "1.1  Define all entities with fields and types." ++
        (if entities ≠ "" then " Entities: " ++ entities ++ "." else ""),
      "1.2  Configure relations between entities (one-to-many, many-to-many).",
      "1.3  Set display fields and default sort for each entity.",
      "Phase 2 — Page Design",
      "2.1  Create List pages for each entity." ++
        (if pages ≠ "" then " Pages: " ++ pages ++ "." else ""),
      "2.2  Create Detail/Form pages for viewing and editing records.",
      "2.3  Create a Dashboard page with stat cards and charts.",
      "2.4  Configure filters, search, and sorting on List pages.",
      "Phase 3 — Workflows & Auth",
      "3.1  Define automation rules (on create, on update triggers).",
      "3.2  Configure user roles and permissions per entity/page.",
      "3.3  Set up email notifications for key events.",
      "Phase 4 — Testing & Launch",
      "4.1  Test all workflows in Base44 preview mode.",
      "4.2  Verify role-based access control.",
      "4.3  Publish via Base44 hosting."]

/-- `build_implementation_plan(flags, stack, mode, domain, tool)`. -/
def build_implementation_plan (flags : List String) (stack : StackChoice)
    (mode : String) (domain : Option Json) (tool : Option ToolProfile) :
    Except Unit (List String) := do
  match tool with
  | some t =>
    if t.slug = "lovable" then lovable_plan flags stack domain mode
    else if t.slug = "base44" then base44_plan flags stack domain mode
    else if t.slug = "replit" then replit_plan flags stack domain mode
    else buildDefaultPlan flags stack mode domain tool
  | none => buildDefaultPlan flags stack mode domain tool
where
  buildDefaultPlan (flags : List String) (stack : StackChoice)
      (mode : String) (domain : Option Json) (tool : Option ToolProfile) :
      Except Unit (List String) := do
    if mode = "mvp" then mvp_plan stack domain
    else do
      let entities ← entity_names domain
      let pages ← page_names domain
      let isCC : Bool := match tool with
        | some t => t.slug == "claude_code"
        | none => false
      let foundation := [
        "Phase 1 — Foundation",
        "1.1  Define problem statement, target user personas, and measurable success metrics (DAU, retention, conversion).",
        "1.2  Write detailed user stories for the MVP scope — cover happy paths, edge cases, and error states.",
        "1.3  Design system architecture: service boundaries, data flow diagram, and integration points.",
        "1.4  Initialise monorepo with backend (" ++ splitStrip0 stack.backend "+" ++
          ") and frontend (" ++ splitStrip0 stack.frontend "+" ++ ")."] ++
        (if isCC then [
          "1.5  Set up environment configuration (.env files) and secrets management.",
          "1.6  git commit -m 'Phase 1: project foundation and initial setup'"]
        else [
          "1.5  Configure CI pipeline: linting (ruff + eslint), type checking, and automated test runner.",
          "1.6  Set up environment configuration (.env files) and secrets management."])
      let models_step :=
        if entities ≠ "" then
          "2.3  Build domain models: " ++ entities ++
            " (SQLAlchemy) with relationships, indexes, and validation."
        else "2.3  Build core domain models (SQLAlchemy) with relationships, indexes, and validation."
      let service_step :=
        if entities ≠ "" then
          "2.4  Implement service layer with business logic for: " ++ entities ++ "."
        else "2.4  Implement service layer with business logic for each domain entity."
      let epDetail ← endpoint_detail domain
      let route_step :=
        "2.5  Build REST API routes with Pydantic request/response schemas, pagination, and filtering." ++
          epDetail
      let phase2 := [
        "Phase 2 — Core Backend",
        "2.1  Design and create database schema with Alembic migrations for " ++
          splitStrip0 stack.database "+" ++ "." ++
          (if entities ≠ "" then " Tables: " ++ entities ++ "." else ""),
        "2.2  Implement authentication system using " ++ stack.auth ++
          ": register, login, refresh, logout, password reset.",
        models_step, service_step, route_step,
        "2.6  Add middleware: CORS, global error handler, rate limiting, request logging."]
      let pages_step :=
        if pages ≠ "" then
          "3.5  Build application pages: " ++ pages ++
            " — with forms (react-hook-form + zod), loading states, and empty states."
        else "3.5  Build core application pages with forms (react-hook-form + zod), loading states, and empty states."
      let phase3 := [
        "Phase 3 — Core Frontend",
        "3.1  Set up " ++ stack.frontend ++ " project with " ++ stack.frontend_ui ++
          " component library.",
        "3.2  Build auth pages (login, register, forgot password) and AuthProvider context.",
        "3.3  Build authenticated layout: sidebar navigation, header with user menu, responsive shell.",
        "3.4  Implement API client layer with auth header injection, error handling, and token refresh.",
        pages_step,
        "3.6  Implement toast notifications, confirmation dialogs, and global error boundary."]
      let fsteps := feature_steps flags stack
      let phase4 :=
        if fsteps ≠ [] then ["Phase 4 — Feature Integration"] ++ fsteps else []
      let phase5 :=
        if isCC then [
          "Phase 5 — Quality & Launch",
          "5.1  Write backend test suite: unit tests for services, integration tests for API routes (pytest + httpx).",
          "5.2  Write frontend tests: component tests (Jest + RTL) and E2E user flow tests (Playwright).",
          "5.3  Security review: OWASP top-10 checklist, dependency audit (pip-audit + npm audit), pen test critical flows.",
          "5.4  Performance optimisation: database query analysis (EXPLAIN), frontend bundle analysis, add caching where needed.",
          "5.5  Build Docker images, finalise docker-compose, and write CI/CD pipeline (GitHub Actions).",
          "5.6  git commit -m 'Phase 5: tests, security, and deployment config'",
          "5.7  Deploy to staging, run full QA pass, fix issues.",
          "5.8  Deploy to production, configure monitoring (Sentry + uptime), and set up alerting.",
          "5.9  Launch beta: gather user feedback, prioritise iteration backlog."]
        else [
          "Phase 5 — Quality & Launch",
          "5.1  Write backend test suite: unit tests for services, integration tests for API routes (pytest + httpx).",
          "5.2  Write frontend tests: component tests (Jest + RTL) and E2E user flow tests (Playwright).",
          "5.3  Security review: OWASP top-10 checklist, dependency audit (pip-audit + npm audit), pen test critical flows.",
          "5.4  Performance optimisation: database query analysis (EXPLAIN), frontend bundle analysis, add caching where needed.",
          "5.5  Build Docker images, finalise docker-compose, and write CI/CD pipeline (GitHub Actions).",
          "5.6  Deploy to staging, run full QA pass, fix issues.",
          "5.7  Deploy to production, configure monitoring (Sentry + uptime), and set up alerting.",
          "5.8  Launch beta: gather user feedback, prioritise iteration backlog."]
      pure (foundation ++ phase2 ++ phase3 ++ phase4 ++ phase5)

/-! ### Leaf templates (`prompt_templates.py`, `tool_prompts.py`,
`doc_templates.py` f-string bodies, and the `ideation.py` system-prompt
constants)

The literal text of these templates is outside the pipeline's contract
(the pipeline only consumes the returned dictionaries' key structure), so
each leaf is a field of `Tpl`, applied to exactly the arguments the
source passes it.  Leaves are modelled as total functions: their own
internal domain interpolation (which, like the plan builder's, can raise
on a malformed accepted domain) is not inspected by any claim. -/

structure Tpl where
  REFINE_SYSTEM : String
  REFINE_SYSTEM_MVP : String
  DOMAIN_ANALYSIS_SYSTEM : String
  DOMAIN_ANALYSIS_SYSTEM_MVP : String
  master_prompt_production : String → Option String → List String → StackChoice → Option String → Option Json → String
  product_requirements : String → Option String → StackChoice → Option Json → String
  backend_code : String → Option String → List String → StackChoice → Option Json → String
  frontend_code : String → Option String → List String → StackChoice → Option Json → String
  database_schema : String → List String → StackChoice → Option Json → String
  auth_setup : String → List String → StackChoice → Option Json → String
  api_documentation : String → List String → StackChoice → Option Json → String
  deployment_config : String → List String → StackChoice → Option Json → String
  testing_suite : String → List String → StackChoice → Option Json → String
  security_checklist : String → List String → StackChoice → Option String → Option Json → String
  realtime_implementation : String → StackChoice → Option Json → String
  payment_integration : String → StackChoice → Option Json → String
  ai_integration : String → StackChoice → Option Json → String
  mobile_api : String → StackChoice → Option Json → String
  search_implementation : String → StackChoice → Option Json → String
  file_upload_system : String → StackChoice → Option Json → String
  master_prompt_mvp : String → Option String → List String → StackChoice → Option Json → String
  mvp_backend : String → Option String → StackChoice → Option Json → String
  mvp_frontend : String → Option String → StackChoice → Option Json → String
  mvp_database : String → StackChoice → Option Json → String
  lovable_master : String → Option String → List String → StackChoice → Option Json → String → String
  lovable_frontend : String → Option String → List String → StackChoice → Option Json → String
  lovable_database : String → List String → StackChoice → Option Json → String
  replit_master : String → Option String → List String → StackChoice → Option Json → String → String
  replit_backend : String → Option String → List String → StackChoice → Option Json → String
  replit_frontend : String → Option String → List String → StackChoice → Option Json → String
  replit_database : String → List String → StackChoice → Option Json → String
  base44_master : String → Option String → List String → StackChoice → Option Json → String → String
  base44_entities : String → List String → Option Json → String
  base44_pages : String → Option Json → String
  claude_code_master : String → List String → StackChoice → Option String → Option (List String) → Option String → Option Json → String → String
  doc_readme : String → List String → StackChoice → Option Json → String
  doc_api_spec : String → List String → StackChoice → Option Json → String
  doc_data_model : String → List String → StackChoice → Option Json → String
  doc_env_setup : List String → StackChoice → String
  doc_deployment_guide : List String → StackChoice → String
  doc_mvp_readme : String → StackChoice → String
  doc_mvp_env : List String → String
  lovable_docs_readme : String → List String → StackChoice → Option Json → String
  lovable_docs_supabase_setup : String → List String → StackChoice → Option Json → String
  replit_docs_readme : String → List String → StackChoice → Option Json → String
  base44_docs_readme : String → List String → StackChoice → Option Json → String
  base44_docs_entity_reference : String → List String → StackChoice → Option Json → String

/-- Python `d[k] = v` on a string-valued dict. -/
def pyDictSetStr (fs : List (String × String)) (k v : String) :
    List (String × String) :=
  if fs.any (fun p => p.1 == k) then
    fs.map (fun p => if p.1 = k then (k, v) else p)
  else fs ++ [(k, v)]

/-! ### `prompt_templates.build_prompt_pack` (key structure) -/

/-- `_build_default_prompts` (no tool selected). -/
def build_default_prompts (tpl : Tpl) (idea : String) (flags : List String)
    (stack : StackChoice) (target_users : Option String)
    (_constraints : Option (List String)) (industry : Option String)
    (mode : String) (domain : Option Json) : List (String × String) :=
  if mode = "mvp" then
    [("master_prompt", tpl.master_prompt_mvp idea target_users flags stack domain),
     ("backend_code", tpl.mvp_backend idea target_users stack domain),
     ("frontend_code", tpl.mvp_frontend idea target_users stack domain),
     ("database_schema", tpl.mvp_database idea stack domain)]
  else
    [("master_prompt", tpl.master_prompt_production idea target_users flags stack industry domain),
     ("product_requirements", tpl.product_requirements idea target_users stack domain),
     ("backend_code", tpl.backend_code idea target_users flags stack domain),
     ("frontend_code", tpl.frontend_code idea target_users flags stack domain),
     ("database_schema", tpl.database_schema idea flags stack domain),
     ("auth_setup", tpl.auth_setup idea flags stack domain),
     ("api_documentation", tpl.api_documentation idea flags stack domain),
     ("deployment_config", tpl.deployment_config idea flags stack domain),
     ("testing_suite", tpl.testing_suite idea flags stack domain),
     ("security_checklist", tpl.security_checklist idea flags stack industry domain)] ++
    (if flags.contains "realtime" then
      [("realtime_implementation", tpl.realtime_implementation idea stack domain)] else []) ++
    (if flags.contains "payments" then
      [("payment_integration", tpl.payment_integration idea stack domain)] else []) ++
    (if flags.contains "ai" then
      [("ai_integration", tpl.ai_integration idea stack domain)] else []) ++
    (if flags.contains "mobile" then
      [("mobile_api", tpl.mobile_api idea stack domain)] else []) ++
    (if flags.contains "search" then
      [("search_implementation", tpl.search_implementation idea stack domain)] else []) ++
    (if flags.contains "file_upload" then
      [("file_upload_system", tpl.file_upload_system idea stack domain)] else [])

/-- `build_prompt_pack(idea, flags, stack, target_users, constraints,
industry, mode, domain, tool)`. -/
def build_prompt_pack (tpl : Tpl) (idea : String) (flags : List String)
    (stack : StackChoice) (target_users : Option String)
    (constraints : Option (List String)) (industry : Option String)
    (mode : String) (domain : Option Json) (tool : Option ToolProfile) :
    List (String × String) :=
  match tool with
  | some t =>
    if t.slug = "lovable" then
      [("master_prompt", tpl.lovable_master idea target_users flags stack domain mode),
       ("frontend_code", tpl.lovable_frontend idea target_users flags stack domain),
       ("database_schema", tpl.lovable_database idea flags stack domain)]
    else if t.slug = "replit" then
      [("master_prompt", tpl.replit_master idea target_users flags stack domain mode),
       ("backend_code", tpl.replit_backend idea target_users flags stack domain),
       ("frontend_code", tpl.replit_frontend idea target_users flags stack domain),
       ("database_schema", tpl.replit_database idea flags stack domain)]
    else if t.slug = "base44" then
      [("master_prompt", tpl.base44_master idea target_users flags stack domain mode),
       ("entity_design", tpl.base44_entities idea flags domain),
       ("page_design", tpl.base44_pages idea domain)]
    else if t.slug = "claude_code" then
      pyDictSetStr
        (build_default_prompts tpl idea flags stack target_users constraints industry mode domain)
        "master_prompt"
        (tpl.claude_code_master idea flags stack target_users constraints industry domain mode)
    else
      build_default_prompts tpl idea flags stack target_users constraints industry mode domain
  | none =>
    build_default_prompts tpl idea flags stack target_users constraints industry mode domain

/-! ### `doc_templates.build_doc_pack` (key structure) -/

def build_default_docs (tpl : Tpl) (idea : String) (flags : List String)
    (stack : StackChoice) (mode : String) (domain : Option Json) :
    List (String × String) :=
  if mode = "mvp" then
    [("readme", tpl.doc_mvp_readme idea stack),
     ("env_setup", tpl.doc_mvp_env flags)]
  else
    [("readme", tpl.doc_readme idea flags stack domain),
     ("api_spec", tpl.doc_api_spec idea flags stack domain),
     ("data_model", tpl.doc_data_model idea flags stack domain),
     ("env_setup", tpl.doc_env_setup flags stack),
     ("deployment_guide", tpl.doc_deployment_guide flags stack)]

/-- `build_doc_pack(idea, flags, stack, target_users, mode, domain, tool)`. -/
def build_doc_pack (tpl : Tpl) (idea : String) (flags : List String)
    (stack : StackChoice) (_target_users : Option String) (mode : String)
    (domain : Option Json) (tool : Option ToolProfile) :
    List (String × String) :=
  match tool with
  | some t =>
    if t.slug = "lovable" then
      [("readme", tpl.lovable_docs_readme idea flags stack domain),
       ("supabase_setup", tpl.lovable_docs_supabase_setup idea flags stack domain)]
    else if t.slug = "base44" then
      [("readme", tpl.base44_docs_readme idea flags stack domain),
       ("entity_reference", tpl.base44_docs_entity_reference idea flags stack domain)]
    else if t.slug = "replit" then
      [("readme", tpl.replit_docs_readme idea flags stack domain)] ++
      (if mode = "production" then
        [("api_spec", tpl.doc_api_spec idea flags stack domain)] else [])
    else build_default_docs tpl idea flags stack mode domain
  | none => build_default_docs tpl idea flags stack mode domain

/-! ### `ideation.py` -/

/-- `mode = getattr(req, "mode", "production") or "production"`:
an absent/None or empty mode defaults to `"production"`. -/
def normalize_mode (m : Option String) : String :=
  match m with
  | none => "production"
  | some s => if s = "" then "production" else s

/-- System prompt chosen by `_refine_idea`. -/
def refine_system (tpl : Tpl) (mode : String) : String :=
  if mode = "mvp" then tpl.REFINE_SYSTEM_MVP else tpl.REFINE_SYSTEM

/-- `max_tok` of `_refine_idea`. -/
def refine_max_tokens (mode : String) : Nat :=
  if mode = "mvp" then 400 else 800

/-- System prompt chosen by `_analyze_domain`. -/
def domain_analysis_system (tpl : Tpl) (mode : String) : String :=
  if mode = "mvp" then tpl.DOMAIN_ANALYSIS_SYSTEM_MVP else tpl.DOMAIN_ANALYSIS_SYSTEM

/-- `max_tok` of `_analyze_domain`. -/
def domain_max_tokens (mode : String) : Nat :=
  if mode = "mvp" then 1200 else 2500

/-- `llm_max_tokens` of the product-generation call. -/
def llm_max_tokens (mode : String) : Nat :=
  if mode = "mvp" then 2048 else 4096

/-- `min_plan_len` of the merge step. -/
def min_plan_len (mode : String) : Nat :=
  if mode = "mvp" then 5 else 10

/-- The request model (`IdeaRequest` of `api/schemas.py`). -/
structure IdeaRequest where
  idea : String
  constraints : List String
  target_users : Option String
  budget : Option String
  preferred_stack : Option String
  industry : Option String
  timeline : Option String
  mode : Option String
  tool : Option String
deriving Repr

/-- Outcomes of the external collaborators for one run: provider
construction (`get_provider` raises a `ValueError` when
`OPENAI_API_KEY` is unset) and the three LLM calls.  `.error` covers a
raised exception, a timeout of the future, or a transport failure;
`.ok s` is the returned message content (`""` for a `None` content). -/
structure Collab where
  providerOk : Bool
  refine : Except Unit String
  domainResp : Except Unit String
  product : Except Unit String

/-- `_refine_idea`: the stripped response when longer than 30
characters, else the raw idea; the raw idea on any exception. -/
def refine_idea (c : Collab) (raw_idea : String) : String :=
  match c.refine with
  | .error _ => raw_idea
  | .ok content =>
    let text := pyStrip content
    if 30 < text.length then text else raw_idea

/-- `_analyze_domain`: parse the stripped response, accept only when the
membership tests for `"entities"` and `"api_endpoints"` both succeed and
hold; `None` on any failure. -/
def analyze_domain (c : Collab) : Option Json :=
  match c.domainResp with
  | .error _ => none
  | .ok content =>
    match extract_json (pyStrip content) with
    | .error _ => none
    | .ok dom =>
      match pyContains dom "entities" with
      | .ok true =>
        match pyContains dom "api_endpoints" with
        | .ok true => some dom
        | _ => none
      | _ => none

/-- `_REQUIRED_KEYS`. -/
def REQUIRED_KEYS : List String :=
  ["implementation_plan", "tech_stack", "prompts", "docs"]

/-- `_validate_payload`: a non-dict has no `.keys()` (`AttributeError`),
a dict must contain the four required keys. -/
def validate_payload (payload : Json) : Except Unit (List (String × Json)) :=
  match payload with
  | .obj fs =>
    if REQUIRED_KEYS.all (fun k => fs.any (fun p => p.1 == k)) then .ok fs
    else .error ()
  | _ => .error ()

/-- A string-valued dict as a JSON-valued dict (`dict(procedural)` keeps
values as they are; the result dict may later mix AI values in). -/
def strPromptDict (fs : List (String × String)) : List (String × Json) :=
  fs.map (fun p => (p.1, Json.str p.2))

/-- The prompt-merge of `generate_package` (lines 265–272): start from a
copy of the procedural prompts; when the AI `prompts` value is a dict,
compare `len` of its `product_requirements` (default `""`) against the
procedural entry (default `""`) and replace on strictly greater.  A
`len` of an unsized value raises out of the merge. -/
def merge_prompts (procedural : List (String × String))
    (payload : List (String × Json)) : Except Unit (List (String × Json)) :=
  let merged : List (String × Json) := strPromptDict procedural
  match jGet payload "prompts" with
  | some (.obj llmPrompts) =>
    let llm_pr := jGetD llmPrompts "product_requirements" (.str "")
    match pyLen llm_pr, pyLen (jGetD merged "product_requirements" (.str "")) with
    | .ok l1, .ok l2 =>
      .ok (if l2 < l1 then pyDictSet merged "product_requirements" llm_pr else merged)
    | _, _ => .error ()
  | _ => .ok merged

/-- `_estimate_complexity(flags)`. -/
def estimate_complexity (flags : List String) : String :=
  let count := flags.length
  if count ≤ 2 then "MVP"
  else if count ≤ 5 then "Medium"
  else "Complex"

/-- `sorted(flags)`. -/
def sortedFlags (flags : List String) : List String := pySorted flags

/-- Exceptions that can leave `generate_package`. -/
inductive PyErr where
  | valueError (msg : String)
  | typeError
deriving Repr, DecidableEq

/-- The response dict of `generate_package`. -/
structure GenerationResult where
  refined_idea : String
  implementation_plan : Json
  tech_stack : List (String × String)
  prompts : List (String × Json)
  docs : List (String × String)
  detected_features : List String
  estimated_complexity : String
  prompt_count : Nat

/-- Lines 218–227: resolve the tool profile (copied — the table entry is
never written) and the stack: the profile's fixed stack takes
precedence; otherwise `choose_stack` runs and, when a profile exists,
the chosen stack is attached to its private copy. -/
def resolve_tool_and_stack (tool : Option String) (flags : List String) :
    Option ToolProfile × StackChoice :=
  match get_tool_profile tool with
  | some p =>
    match p.stack with
    | some s => (some p, s)
    | none =>
      let s := choose_stack flags
      (some { p with stack := some s }, s)
  | none => (none, choose_stack flags)

/-- The product-generation branch up to schema validation:
`_validate_payload(_extract_json(raw))` under the `try`, `None` when the
call raised/timed out or parsing/validation failed. -/
def product_payload (c : Collab) : Option (List (String × Json)) :=
  match c.product with
  | .error _ => none
  | .ok raw =>
    match extract_json raw with
    | .error _ => none
    | .ok payloadJ =>
      match validate_payload payloadJ with
      | .error _ => none
      | .ok payload => some payload

/-- Lines 274–277: the AI plan when it is a list meeting the mode's
minimum step count, else the procedural plan. -/
def final_plan_choice (mode : String) (payload : List (String × Json))
    (procedural_plan : List String) : Json :=
  match jGet payload "implementation_plan" with
  | some (.arr es) =>
    if min_plan_len mode ≤ es.length then .arr es
    else .arr (procedural_plan.map .str)
  | _ => .arr (procedural_plan.map .str)

/-- The fully-procedural response dict (the `except` branch,
lines 292–301). -/
def fallback_result (refined : String) (procedural_plan : List String)
    (stack : StackChoice) (procedural_prompts : List (String × String))
    (procedural_docs : List (String × String)) (flags : List String) :
    GenerationResult :=
  { refined_idea := refined,
    implementation_plan := .arr (procedural_plan.map .str),
    tech_stack := stack.to_dict,
    prompts := strPromptDict procedural_prompts,
    docs := procedural_docs,
    detected_features := sortedFlags flags,
    estimated_complexity := estimate_complexity flags,
    prompt_count := procedural_prompts.length }

/-- The merged response dict (lines 279–288). -/
def merged_result (refined : String) (final_plan : Json) (stack : StackChoice)
    (merged : List (String × Json)) (procedural_docs : List (String × String))
    (flags : List String) : GenerationResult :=
  { refined_idea := refined,
    implementation_plan := final_plan,
    tech_stack := stack.to_dict,
    prompts := merged,
    docs := procedural_docs,
    detected_features := sortedFlags flags,
    estimated_complexity := estimate_complexity flags,
    prompt_count := merged.length }

/-- `generate_package(req)`.  `build_system_prompt`/`build_user_prompt`
only feed the product-generation call, whose outcome is the `c.product`
oracle, so they do not appear.  The procedural plan builder's exceptions
(possible only under a malformed accepted domain) propagate, as in the
source where they are raised outside every `try`. -/
def generate_package (tpl : Tpl) (c : Collab) (req : IdeaRequest) :
    Except PyErr GenerationResult :=
  let idea := pyStrip req.idea
  if idea.length < 10 then .error (.valueError "Idea is too short.")
  else
    let mode := normalize_mode req.mode
    if !c.providerOk then .error (.valueError "OPENAI_API_KEY is not set.")
    else
      -- 1. refine (its own except and the caller's both fall back to `idea`)
      let refined := refine_idea c idea
      -- 2. flags from BOTH raw (validated/stripped) + refined
      let flags := pySetUnion (detect_features idea) (detect_features refined)
      -- 2a. tool profile (private copy) and stack
      let rs := resolve_tool_and_stack req.tool flags
      let tool_profile := rs.1
      let stack := rs.2
      -- 2b + 4. fan-out; the domain branch folds every failure to None
      let domain := analyze_domain c
      -- 3. procedural prompts, plan, docs from the refined idea + domain
      let procedural_prompts :=
        build_prompt_pack tpl refined flags stack req.target_users
          (some req.constraints) req.industry mode domain tool_profile
      match build_implementation_plan flags stack mode domain tool_profile with
      | .error _ => .error .typeError
      | .ok procedural_plan =>
        let procedural_docs :=
          build_doc_pack tpl refined flags stack req.target_users mode domain tool_profile
        match product_payload c with
        | none =>
          .ok (fallback_result refined procedural_plan stack procedural_prompts
            procedural_docs flags)
        | some payload =>
          match merge_prompts procedural_prompts payload with
          | .error _ =>
            .ok (fallback_result refined procedural_plan stack procedural_prompts
              procedural_docs flags)
          | .ok merged =>
            .ok (merged_result refined
              (final_plan_choice mode payload procedural_plan) stack merged
              procedural_docs flags)

/-! ### Heap-level view of step 2a (for the shared-profile invariant)

`TOOL_PROFILES` values are process-wide shared objects.  `copy.copy`
allocates a fresh object; `tool_profile.stack = stack` writes at the
address the local name holds.  Addresses are list indices. -/

structure ProfileStore where
  heap : List ToolProfile
  table : List (String × Nat)

def initialStore : ProfileStore :=
  { heap := [LOVABLE, REPLIT, BASE44, CLAUDE_CODE],
    table := [("lovable", 0), ("replit", 1), ("base44", 2), ("claude_code", 3)] }

def heapSetStack (st : ProfileStore) (a : Nat) (s : StackChoice) : ProfileStore :=
  match st.heap[a]? with
  | some p => { st with heap := st.heap.set a { p with stack := some s } }
  | none => st

/-- Lines 217–227 of `ideation.py` over the explicit store:
look the profile up, copy it, read or attach the stack. -/
def resolveProfileStep (st : ProfileStore) (tool : Option String)
    (flags : List String) : ProfileStore × Option Nat × StackChoice :=
  let addr : Option Nat :=
    match tool with
    | none => none
    | some s => if s = "" then none else (st.table.find? (fun p => p.1 == s)).map (·.2)
  match addr with
  | none => (st, none, choose_stack flags)
  | some a =>
    match st.heap[a]? with
    | none => (st, none, choose_stack flags)
    | some orig =>
      let copyAddr := st.heap.length
      let st1 := { st with heap := st.heap ++ [orig] }
      match orig.stack with
      | some s => (st1, some copyAddr, s)
      | none =>
        let s := choose_stack flags
        (heapSetStack st1 copyAddr s, some copyAddr, s)

/-! ### Concrete instances for witnesses -/

/-- A concrete template instance (all leaf texts empty): witnesses and
counterexamples evaluate the pipeline at it.  No claim depends on leaf
text, so any instance exercises the same control flow. -/
def tpl0 : Tpl :=
  { REFINE_SYSTEM := "", REFINE_SYSTEM_MVP := "",
    DOMAIN_ANALYSIS_SYSTEM := "", DOMAIN_ANALYSIS_SYSTEM_MVP := "",
    master_prompt_production := fun _ _ _ _ _ _ => "",
    product_requirements := fun _ _ _ _ => "",
    backend_code := fun _ _ _ _ _ => "",
    frontend_code := fun _ _ _ _ _ => "",
    database_schema := fun _ _ _ _ => "",
    auth_setup := fun _ _ _ _ => "",
    api_documentation := fun _ _ _ _ => "",
    deployment_config := fun _ _ _ _ => "",
    testing_suite := fun _ _ _ _ => "",
    security_checklist := fun _ _ _ _ _ => "",
    realtime_implementation := fun _ _ _ => "",
    payment_integration := fun _ _ _ => "",
    ai_integration := fun _ _ _ => "",
    mobile_api := fun _ _ _ => "",
    search_implementation := fun _ _ _ => "",
    file_upload_system := fun _ _ _ => "",
    master_prompt_mvp := fun _ _ _ _ _ => "",
    mvp_backend := fun _ _ _ _ => "",
    mvp_frontend := fun _ _ _ _ => "",
    mvp_database := fun _ _ _ => "",
    lovable_master := fun _ _ _ _ _ _ => "",
    lovable_frontend := fun _ _ _ _ _ => "",
    lovable_database := fun _ _ _ _ => "",
    replit_master := fun _ _ _ _ _ _ => "",
    replit_backend := fun _ _ _ _ _ => "",
    replit_frontend := fun _ _ _ _ _ => "",
    replit_database := fun _ _ _ _ => "",
    base44_master := fun _ _ _ _ _ _ => "",
    base44_entities := fun _ _ _ => "",
    base44_pages := fun _ _ => "",
    claude_code_master := fun _ _ _ _ _ _ _ _ => "",
    doc_readme := fun _ _ _ _ => "",
    doc_api_spec := fun _ _ _ _ => "",
    doc_data_model := fun _ _ _ _ => "",
    doc_env_setup := fun _ _ => "",
    doc_deployment_guide := fun _ _ => "",
    doc_mvp_readme := fun _ _ => "",
    doc_mvp_env := fun _ => "",
    lovable_docs_readme := fun _ _ _ _ => "",
    lovable_docs_supabase_setup := fun _ _ _ _ => "",
    replit_docs_readme := fun _ _ _ _ => "",
    base44_docs_readme := fun _ _ _ _ => "",
    base44_docs_entity_reference := fun _ _ _ _ => "" }

/-- A request with every optional hint absent. -/
def mkReq (idea : String) (mode : Option String) (tool : Option String) :
    IdeaRequest :=
  { idea := idea, constraints := [], target_users := none, budget := none,
    preferred_stack := none, industry := none, timeline := none,
    mode := mode, tool := tool }

/-- All three collaborator calls raise; provider available. -/
def collabAllFail : Collab :=
  { providerOk := true, refine := .error (), domainResp := .error (),
    product := .error () }

/-! ### Shape of a successful run -/

/-- Every `.ok` result of `generate_package` is either the procedural
fallback record or the merged record, built from the pipeline's own
stage values. -/
lemma generate_package_ok (tpl : Tpl) (c : Collab) (req : IdeaRequest)
    (r : GenerationResult) (h : generate_package tpl c req = .ok r) :
    10 ≤ (pyStrip req.idea).length ∧ c.providerOk = true ∧
    ∃ procedural_plan,
      build_implementation_plan
        (pySetUnion (detect_features (pyStrip req.idea))
          (detect_features (refine_idea c (pyStrip req.idea))))
        (resolve_tool_and_stack req.tool
          (pySetUnion (detect_features (pyStrip req.idea))
            (detect_features (refine_idea c (pyStrip req.idea))))).2
        (normalize_mode req.mode) (analyze_domain c)
        (resolve_tool_and_stack req.tool
          (pySetUnion (detect_features (pyStrip req.idea))
            (detect_features (refine_idea c (pyStrip req.idea))))).1
        = .ok procedural_plan ∧
      ((r = fallback_result (refine_idea c (pyStrip req.idea)) procedural_plan
          (resolve_tool_and_stack req.tool
            (pySetUnion (detect_features (pyStrip req.idea))
              (detect_features (refine_idea c (pyStrip req.idea))))).2
          (build_prompt_pack tpl (refine_idea c (pyStrip req.idea))
            (pySetUnion (detect_features (pyStrip req.idea))
              (detect_features (refine_idea c (pyStrip req.idea))))
            (resolve_tool_and_stack req.tool
              (pySetUnion (detect_features (pyStrip req.idea))
                (detect_features (refine_idea c (pyStrip req.idea))))).2
            req.target_users (some req.constraints) req.industry
            (normalize_mode req.mode) (analyze_domain c)
            (resolve_tool_and_stack req.tool
              (pySetUnion (detect_features (pyStrip req.idea))
                (detect_features (refine_idea c (pyStrip req.idea))))).1)
          (build_doc_pack tpl (refine_idea c (pyStrip req.idea))
            (pySetUnion (detect_features (pyStrip req.idea))
              (detect_features (refine_idea c (pyStrip req.idea))))
            (resolve_tool_and_stack req.tool
              (pySetUnion (detect_features (pyStrip req.idea))
                (detect_features (refine_idea c (pyStrip req.idea))))).2
            req.target_users (normalize_mode req.mode) (analyze_domain c)
            (resolve_tool_and_stack req.tool
              (pySetUnion (detect_features (pyStrip req.idea))
                (detect_features (refine_idea c (pyStrip req.idea))))).1)
          (pySetUnion (detect_features (pyStrip req.idea))
            (detect_features (refine_idea c (pyStrip req.idea)))) ∧
        (product_payload c = none ∨
          ∃ payload, product_payload c = some payload ∧
            merge_prompts
              (build_prompt_pack tpl (refine_idea c (pyStrip req.idea))
                (pySetUnion (detect_features (pyStrip req.idea))
                  (detect_features (refine_idea c (pyStrip req.idea))))
                (resolve_tool_and_stack req.tool
                  (pySetUnion (detect_features (pyStrip req.idea))
                    (detect_features (refine_idea c (pyStrip req.idea))))).2
                req.target_users (some req.constraints) req.industry
                (normalize_mode req.mode) (analyze_domain c)
                (resolve_tool_and_stack req.tool
                  (pySetUnion (detect_features (pyStrip req.idea))
                    (detect_features (refine_idea c (pyStrip req.idea))))).1)
              payload = .error ())) ∨
      (∃ payload merged, product_payload c = some payload ∧
        merge_prompts
          (build_prompt_pack tpl (refine_idea c (pyStrip req.idea))
            (pySetUnion (detect_features (pyStrip req.idea))
              (detect_features (refine_idea c (pyStrip req.idea))))
            (resolve_tool_and_stack req.tool
              (pySetUnion (detect_features (pyStrip req.idea))
                (detect_features (refine_idea c (pyStrip req.idea))))).2
            req.target_users (some req.constraints) req.industry
            (normalize_mode req.mode) (analyze_domain c)
            (resolve_tool_and_stack req.tool
              (pySetUnion (detect_features (pyStrip req.idea))
                (detect_features (refine_idea c (pyStrip req.idea))))).1)
          payload = .ok merged ∧
        r = merged_result (refine_idea c (pyStrip req.idea))
          (final_plan_choice (normalize_mode req.mode) payload procedural_plan)
          (resolve_tool_and_stack req.tool
            (pySetUnion (detect_features (pyStrip req.idea))
              (detect_features (refine_idea c (pyStrip req.idea))))).2
          merged
          (build_doc_pack tpl (refine_idea c (pyStrip req.idea))
            (pySetUnion (detect_features (pyStrip req.idea))
              (detect_features (refine_idea c (pyStrip req.idea))))
            (resolve_tool_and_stack req.tool
              (pySetUnion (detect_features (pyStrip req.idea))
                (detect_features (refine_idea c (pyStrip req.idea))))).2
            req.target_users (normalize_mode req.mode) (analyze_domain c)
            (resolve_tool_and_stack req.tool
              (pySetUnion (detect_features (pyStrip req.idea))
                (detect_features (refine_idea c (pyStrip req.idea))))).1)
          (pySetUnion (detect_features (pyStrip req.idea))
            (detect_features (refine_idea c (pyStrip req.idea)))))) := by
  simp only [generate_package] at h
  set idea := pyStrip req.idea with hidea
  set mode := normalize_mode req.mode with hmode
  set refined := refine_idea c idea with hrefined
  set flags := pySetUnion (detect_features idea) (detect_features refined) with hflags
  set rs := resolve_tool_and_stack req.tool flags with hrs
  set domain := analyze_domain c with hdomain
  set pprompts := build_prompt_pack tpl refined flags rs.2 req.target_users
    (some req.constraints) req.industry mode domain rs.1 with hpprompts
  set pdocs := build_doc_pack tpl refined flags rs.2 req.target_users mode
    domain rs.1 with hpdocs
  by_cases hlen : idea.length < 10
  · rw [if_pos hlen] at h
    simp at h
  · rw [if_neg hlen] at h
    by_cases hprov : c.providerOk
    · rw [hprov] at h
      simp only [Bool.not_true, Bool.false_eq_true, if_false] at h
      refine ⟨by omega, hprov, ?_⟩
      rcases hplan : build_implementation_plan flags rs.2 mode domain rs.1
        with e | plan
      · rw [hplan] at h; simp at h
      · rw [hplan] at h
        dsimp only at h
        refine ⟨plan, rfl, ?_⟩
        rcases hpp : product_payload c with _ | payload
        · rw [hpp] at h
          dsimp only at h
          injection h with h2
          exact Or.inl ⟨h2.symm, Or.inl rfl⟩
        · rw [hpp] at h
          dsimp only at h
          rcases hm : merge_prompts pprompts payload with e2 | merged
          · rw [hm] at h
            dsimp only at h
            injection h with h2
            refine Or.inl ⟨h2.symm, Or.inr ⟨payload, rfl, ?_⟩⟩
            first | rfl | exact hm
          · rw [hm] at h
            dsimp only at h
            injection h with h2
            refine Or.inr ⟨payload, merged, rfl, ?_, h2.symm⟩
            first | rfl | exact hm
    · have hfalse : c.providerOk = false := by
        cases hcp : c.providerOk
        · rfl
        · exact absurd hcp hprov
      rw [hfalse] at h
      simp at h

/-! ### Claim theorems -/

set_option maxHeartbeats 1600000
set_option maxRecDepth 100000

/-- C6: the estimated complexity label is a pure function of flag
cardinality — size 0, 1 or 2 gives "MVP", size 3, 4 or 5 gives "Medium",
size 6 or more gives "Complex" — and every successful result carries that
label for the run's flag set and a `prompt_count` equal to the size of
its final (possibly merged) prompt set. -/
theorem C6_complexity_and_prompt_count :
    (∀ flags : List String, flags.length ≤ 2 → estimate_complexity flags = "MVP")
    ∧ (∀ flags : List String, 3 ≤ flags.length → flags.length ≤ 5 →
        estimate_complexity flags = "Medium")
    ∧ (∀ flags : List String, 6 ≤ flags.length →
        estimate_complexity flags = "Complex")
    ∧ (∀ (tpl : Tpl) (c : Collab) (req : IdeaRequest) (r : GenerationResult),
        generate_package tpl c req = .ok r →
        r.estimated_complexity =
          estimate_complexity (pySetUnion (detect_features (pyStrip req.idea))
            (detect_features (refine_idea c (pyStrip req.idea))))
        ∧ r.prompt_count = r.prompts.length) := by
  refine ⟨?_, ?_, ?_, ?_⟩
  · intro flags hc
    simp [estimate_complexity, hc]
  · intro flags h3 h5
    have : ¬ flags.length ≤ 2 := by omega
    simp [estimate_complexity, this, h5]
  · intro flags h6
    have h2 : ¬ flags.length ≤ 2 := by omega
    have h5 : ¬ flags.length ≤ 5 := by omega
    simp [estimate_complexity, h2, h5]
  · intro tpl c req r h
    obtain ⟨-, -, plan, -, hcases⟩ := generate_package_ok tpl c req r h
    rcases hcases with ⟨hr, -⟩ | ⟨payload, merged, -, -, hr⟩
    · subst hr
      exact ⟨rfl, by simp [fallback_result, strPromptDict]⟩
    · subst hr
      exact ⟨rfl, rfl⟩

/-- C6 witness: the cardinality cases at concrete flag sets and the
result-level facts on a concrete run. -/
theorem C6_witness :
    estimate_complexity (∅ : List String) = "MVP"
    ∧ estimate_complexity {"realtime", "payments", "ai"} = "Medium"
    ∧ estimate_complexity {"a", "b", "c", "d", "e", "f"} = "Complex"
    ∧ (generate_package tpl0 collabAllFail
        (mkReq "a real-time chat for teams" none none)).map
        (fun r => (r.estimated_complexity, decide (r.prompt_count = r.prompts.length)))
      = .ok ("MVP", true) := by
  refine ⟨C6_complexity_and_prompt_count.1 ∅ (by decide),
    C6_complexity_and_prompt_count.2.1 _ (by decide) (by decide),
    C6_complexity_and_prompt_count.2.2.1 _ (by decide), ?_⟩
  rcases h : generate_package tpl0 collabAllFail
      (mkReq "a real-time chat for teams" none none) with e | r
  · have hok : (generate_package tpl0 collabAllFail
        (mkReq "a real-time chat for teams" none none)).isOk = true := by decide
    rw [h] at hok
    exact Bool.noConfusion hok
  · obtain ⟨hcx, hcount⟩ :=
      C6_complexity_and_prompt_count.2.2.2 tpl0 collabAllFail _ r h
    simp only [Except.map, hcx, hcount, decide_eq_true_eq]
    have hmvp : estimate_complexity
        (pySetUnion (detect_features (pyStrip (mkReq "a real-time chat for teams" none none).idea))
          (detect_features (refine_idea collabAllFail
            (pyStrip (mkReq "a real-time chat for teams" none none).idea)))) = "MVP" := by
      decide
    simp [hmvp]

/-- C7: `detect` is deterministic, its result is always a subset of the
fixed flag vocabulary, and a successful run's `detected_features` is the
sorted union of the flags detected in the (validated) idea text and in
the refined idea. -/
theorem C7_detect_deterministic_subset_union :
    (∀ text : String, detect_features text = detect_features text)
    ∧ (∀ text : String, detect_features text ⊆ FLAG_VOCABULARY)
    ∧ (∀ (tpl : Tpl) (c : Collab) (req : IdeaRequest) (r : GenerationResult),
        generate_package tpl c req = .ok r →
        r.detected_features = sortedFlags
          (pySetUnion (detect_features (pyStrip req.idea))
            (detect_features (refine_idea c (pyStrip req.idea))))) := by
  refine ⟨fun _ => rfl, ?_, ?_⟩
  · intro text x hx
    simp only [detect_features, List.mem_toFinset, List.mem_map,
      List.mem_filter] at hx
    obtain ⟨fk, ⟨hmem, -⟩, hfst⟩ := hx
    simp only [FLAG_VOCABULARY, List.mem_toFinset, List.mem_map]
    exact ⟨fk, hmem, hfst⟩
  · intro tpl c req r h
    obtain ⟨-, -, plan, -, hcases⟩ := generate_package_ok tpl c req r h
    rcases hcases with ⟨hr, -⟩ | ⟨payload, merged, -, -, hr⟩
    · subst hr; rfl
    · subst hr; rfl

/-- C7 witness: determinism and vocabulary membership at a concrete
text, and the union fact on a concrete successful run. -/
theorem C7_witness :
    detect_features "live chat with payments" =
      detect_features "live chat with payments"
    ∧ detect_features "live chat with payments" ⊆ FLAG_VOCABULARY
    ∧ (generate_package tpl0 collabAllFail
        (mkReq "search my files quickly now" none none)).map
        (fun r => decide (r.detected_features = sortedFlags
          (pySetUnion (detect_features (pyStrip "search my files quickly now"))
            (detect_features (refine_idea collabAllFail
              (pyStrip "search my files quickly now"))))))
      = .ok true := by
  refine ⟨C7_detect_deterministic_subset_union.1 _,
    C7_detect_deterministic_subset_union.2.1 _, ?_⟩
  rcases h : generate_package tpl0 collabAllFail
      (mkReq "search my files quickly now" none none) with e | r
  · have hok : (generate_package tpl0 collabAllFail
        (mkReq "search my files quickly now" none none)).isOk = true := by decide
    rw [h] at hok
    exact Bool.noConfusion hok
  · have hu := C7_detect_deterministic_subset_union.2.2 tpl0 collabAllFail _ r h
    simp only [Except.map, hu, decide_eq_true_eq, Except.ok.injEq]
    rfl

/-- C9: `generate_package` strips the idea before the 10-character
minimum check — a raw idea of length at least 10 whose stripped length
is below 10 is rejected with the validation error, for every collaborator
outcome — and every downstream stage works from the stripped text only:
a run on any request equals the run on the same request with the idea
already stripped. -/
theorem C9_strip_before_validation (tpl : Tpl) (c : Collab)
    (req : IdeaRequest) (h0 : 10 ≤ req.idea.length)
    (h : (pyStrip req.idea).length < 10) :
    generate_package tpl c req = .error (.valueError "Idea is too short.")
    ∧ ∀ req' : IdeaRequest,
        generate_package tpl c { req' with idea := pyStrip req'.idea } =
          generate_package tpl c req' := by
  constructor
  · simp only [generate_package, if_pos h]
  · intro req'
    simp only [generate_package, pyStrip_idem]

/-- C9 witness: a 13-character raw idea whose stripped form has 7
characters is rejected, and stripping is transparent on a concrete
accepted request. -/
theorem C9_witness :
    generate_package tpl0 collabAllFail (mkReq "   tinyidea   " none none)
        = .error (.valueError "Idea is too short.")
    ∧ generate_package tpl0 collabAllFail
        { mkReq " a small recipe box " none none with
            idea := pyStrip (mkReq " a small recipe box " none none).idea } =
      generate_package tpl0 collabAllFail (mkReq " a small recipe box " none none) := by
  constructor
  · exact (C9_strip_before_validation tpl0 collabAllFail _
      (by decide) (by decide)).1
  · exact (C9_strip_before_validation tpl0 collabAllFail
      (mkReq "   tinyidea   " none none) (by decide) (by decide)).2
      (mkReq " a small recipe box " none none)

/-- C10: every mode other than the exact string `"mvp"` — including
unrecognized strings such as `"MVP"` or `"Production"`, and the
`None`/empty-string values that default to `"production"` — drives every
listed mode-dependent decision exactly as `"production"` does:
refinement and domain-analysis system prompts and token budgets, and the
minimum plan-length threshold of 10. -/
theorem C10_non_mvp_modes_behave_as_production (tpl : Tpl)
    (m : Option String) (h : m ≠ some "mvp") :
    normalize_mode none = "production"
    ∧ normalize_mode (some "") = "production"
    ∧ refine_system tpl (normalize_mode m) = refine_system tpl "production"
    ∧ refine_max_tokens (normalize_mode m) = refine_max_tokens "production"
    ∧ domain_analysis_system tpl (normalize_mode m) =
        domain_analysis_system tpl "production"
    ∧ domain_max_tokens (normalize_mode m) = domain_max_tokens "production"
    ∧ min_plan_len (normalize_mode m) = 10 := by
  have hne : normalize_mode m ≠ "mvp" := by
    rcases m with _ | s
    · simp [normalize_mode]
    · simp only [normalize_mode]
      by_cases hs : s = ""
      · simp [hs]
      · simpa [hs] using fun hcon => h (by rw [hcon])
  refine ⟨rfl, rfl, ?_, ?_, ?_, ?_, ?_⟩ <;>
    simp [refine_system, refine_max_tokens, domain_analysis_system,
      domain_max_tokens, min_plan_len, hne]

/-- C10 witness: the defaults and the production behaviour at the
unrecognized mode string `"MVP"`. -/
theorem C10_witness :
    normalize_mode none = "production"
    ∧ normalize_mode (some "") = "production"
    ∧ refine_system tpl0 (normalize_mode (some "MVP")) = refine_system tpl0 "production"
    ∧ refine_max_tokens (normalize_mode (some "MVP")) = 800
    ∧ domain_analysis_system tpl0 (normalize_mode (some "MVP")) =
        domain_analysis_system tpl0 "production"
    ∧ domain_max_tokens (normalize_mode (some "MVP")) = 2500
    ∧ min_plan_len (normalize_mode (some "MVP")) = 10 := by
  obtain ⟨h1, h2, h3, h4, h5, h6, h7⟩ :=
    C10_non_mvp_modes_behave_as_production tpl0 (some "MVP") (by decide)
  exact ⟨h1, h2, h3, h4.trans (by decide), h5, h6.trans (by decide), h7⟩

/-- C8: a pipeline run never mutates the process-wide tool-profile
table: for every tool identifier the four table objects are unchanged
after the resolution step, and for the `claude_code` profile (the one
with no fixed stack) the chosen stack is attached only to a freshly
allocated private copy — the shared object's stack stays `None`. -/
theorem C8_shared_profiles_never_mutated :
    (∀ (tool : Option String) (flags : List String),
      ((resolveProfileStep initialStore tool flags).1).heap.take 4 =
          initialStore.heap
      ∧ ((resolveProfileStep initialStore tool flags).1).table =
          initialStore.table)
    ∧ (∀ flags : List String,
        (resolveProfileStep initialStore (some "claude_code") flags).2.1 = some 4
        ∧ ((resolveProfileStep initialStore (some "claude_code") flags).1).heap[4]? =
            some { CLAUDE_CODE with stack := some (choose_stack flags) }
        ∧ ((resolveProfileStep initialStore (some "claude_code") flags).1).heap[3]? =
            some CLAUDE_CODE
        ∧ CLAUDE_CODE.stack = none) := by
  constructor
  · intro tool flags
    rcases tool with _ | s
    · exact ⟨rfl, rfl⟩
    · by_cases h0 : s = ""
      · subst h0; exact ⟨rfl, rfl⟩
      · by_cases h1 : s = "lovable"
        · subst h1; exact ⟨rfl, rfl⟩
        · by_cases h2 : s = "replit"
          · subst h2; exact ⟨rfl, rfl⟩
          · by_cases h3 : s = "base44"
            · subst h3; exact ⟨rfl, rfl⟩
            · by_cases h4 : s = "claude_code"
              · subst h4; exact ⟨rfl, rfl⟩
              · have hfind : (initialStore.table.find? (fun p => p.1 == s)) = none := by
                  rw [List.find?_eq_none]
                  intro x hx
                  simp only [initialStore, List.mem_cons,
                    List.not_mem_nil, or_false] at hx
                  rcases hx with rfl | rfl | rfl | rfl <;>
                    simp only [beq_iff_eq]
                  · exact fun hcon => h1 hcon.symm
                  · exact fun hcon => h2 hcon.symm
                  · exact fun hcon => h3 hcon.symm
                  · exact fun hcon => h4 hcon.symm
                constructor
                · simp [resolveProfileStep, h0, hfind]
                  decide
                · simp [resolveProfileStep, h0, hfind]
  · intro flags
    exact ⟨rfl, rfl, rfl, rfl⟩

/-! ### Procedural generators are total and non-empty when no domain
model is available -/

lemma except_bind_ok {α β ε : Type} (a : α) (f : α → Except ε β) :
    ((Except.ok a : Except ε α) >>= f) = f a := rfl

lemma except_pure_eq {α ε : Type} (a : α) :
    (pure a : Except ε α) = Except.ok a := rfl

lemma entity_names_none : entity_names none = .ok "" := rfl

lemma page_names_none : page_names none = .ok "" := rfl

lemma endpoint_detail_none : endpoint_detail none = .ok "" := rfl

/-- With no domain model the plan builder cannot raise, and every branch
returns a non-empty plan. -/
lemma build_implementation_plan_none (flags : List String)
    (stack : StackChoice) (mode : String) (tool : Option ToolProfile) :
    ∃ plan, build_implementation_plan flags stack mode none tool = .ok plan
      ∧ plan ≠ [] := by
  have hlov : ∀ m, ∃ p, lovable_plan flags stack none m = .ok p ∧ p ≠ [] := by
    intro m
    unfold lovable_plan
    simp only [entity_names_none, page_names_none]
    by_cases hm : m = "mvp" <;>
      simp [hm, except_bind_ok, except_pure_eq, List.append_ne_nil_of_right_ne_nil]
  have hrep : ∀ m, ∃ p, replit_plan flags stack none m = .ok p ∧ p ≠ [] := by
    intro m
    unfold replit_plan
    simp only [entity_names_none, page_names_none]
    by_cases hm : m = "mvp" <;>
      simp [hm, except_bind_ok, except_pure_eq, List.append_ne_nil_of_right_ne_nil]
  have hb44 : ∀ m, ∃ p, base44_plan flags stack none m = .ok p ∧ p ≠ [] := by
    intro m
    unfold base44_plan
    simp only [entity_names_none, page_names_none]
    by_cases hm : m = "mvp" <;>
      simp [hm, except_bind_ok, except_pure_eq]
  have hmvp : ∃ p, mvp_plan stack none = .ok p ∧ p ≠ [] := by
    unfold mvp_plan
    simp [entity_names_none, page_names_none, except_bind_ok, except_pure_eq]
  have hdef : ∃ p, build_implementation_plan.buildDefaultPlan flags stack mode
      none tool = .ok p ∧ p ≠ [] := by
    unfold build_implementation_plan.buildDefaultPlan
    by_cases hm : mode = "mvp"
    · simpa [hm, except_bind_ok, except_pure_eq] using hmvp
    · simp only [entity_names_none, page_names_none, endpoint_detail_none, hm]
      simp [except_bind_ok, except_pure_eq, List.append_ne_nil_of_right_ne_nil]
  unfold build_implementation_plan
  rcases tool with _ | t
  · exact hdef
  · by_cases h1 : t.slug = "lovable"
    · simpa [h1] using hlov mode
    · by_cases h2 : t.slug = "base44"
      · simpa [h1, h2] using hb44 mode
      · by_cases h3 : t.slug = "replit"
        · simpa [h1, h2, h3] using hrep mode
        · simpa [h1, h2, h3] using hdef

/-- Every branch of the prompt-pack builder returns a non-empty
dictionary. -/
lemma build_prompt_pack_ne_nil (tpl : Tpl) (idea : String)
    (flags : List String) (stack : StackChoice) (tu : Option String)
    (cons : Option (List String)) (ind : Option String) (mode : String)
    (domain : Option Json) (tool : Option ToolProfile) :
    build_prompt_pack tpl idea flags stack tu cons ind mode domain tool ≠ [] := by
  have hdef : build_default_prompts tpl idea flags stack tu cons ind mode domain ≠ [] := by
    unfold build_default_prompts
    by_cases hm : mode = "mvp" <;>
      simp [hm, List.append_ne_nil_of_left_ne_nil]
  unfold build_prompt_pack
  rcases tool with _ | t
  · exact hdef
  · by_cases h1 : t.slug = "lovable"
    · simp [h1]
    · by_cases h2 : t.slug = "replit"
      · simp [h1, h2]
      · by_cases h3 : t.slug = "base44"
        · simp [h1, h2, h3]
        · by_cases h4 : t.slug = "claude_code"
          · simp only [h1, h2, h3, h4, if_false, if_true]
            unfold pyDictSetStr
            by_cases hany : ((build_default_prompts tpl idea flags stack tu cons
                ind mode domain).any fun p => p.1 == "master_prompt") = true
            · rw [if_pos hany]
              simpa using hdef
            · rw [if_neg hany]
              simp [List.append_eq_nil]
          · simpa [h1, h2, h3, h4] using hdef

/-- Every branch of the doc-pack builder returns a non-empty
dictionary. -/
lemma build_doc_pack_ne_nil (tpl : Tpl) (idea : String)
    (flags : List String) (stack : StackChoice) (tu : Option String)
    (mode : String) (domain : Option Json) (tool : Option ToolProfile) :
    build_doc_pack tpl idea flags stack tu mode domain tool ≠ [] := by
  have hdef : build_default_docs tpl idea flags stack mode domain ≠ [] := by
    unfold build_default_docs
    by_cases hm : mode = "mvp" <;> simp [hm]
  unfold build_doc_pack
  rcases tool with _ | t
  · exact hdef
  · by_cases h1 : t.slug = "lovable"
    · simp [h1]
    · by_cases h2 : t.slug = "base44"
      · simp [h1, h2]
      · by_cases h3 : t.slug = "replit"
        · simp [h1, h2, h3]
        · simpa [h1, h2, h3] using hdef

/-- C5 counterexample to "this is the only fatal failure path": a valid
ten-character idea still makes `generate_package` raise — the provider
singleton's `ValueError` for a missing `OPENAI_API_KEY` — which is not
the validation failure. -/
theorem C5_counterexample :
    generate_package tpl0
        { providerOk := false, refine := .error (), domainResp := .error (),
          product := .error () }
        (mkReq "abcdefghij" none none)
      = .error (.valueError "OPENAI_API_KEY is not set.")
    ∧ PyErr.valueError "OPENAI_API_KEY is not set."
        ≠ PyErr.valueError "Idea is too short." := by
  exact ⟨rfl, by decide⟩

/-- C5 (amended): a stripped idea shorter than 10 characters is rejected
with the validation `ValueError` whatever the collaborators do, and a
stripped idea of at least 10 characters is never rejected by validation
(the remaining fatal paths — provider initialization, and the latent
type errors of a malformed accepted domain — raise different errors). -/
theorem C5_validation_gate (tpl : Tpl) (c : Collab) (req : IdeaRequest) :
    ((pyStrip req.idea).length < 10 →
      generate_package tpl c req = .error (.valueError "Idea is too short."))
    ∧ (10 ≤ (pyStrip req.idea).length →
      generate_package tpl c req ≠ .error (.valueError "Idea is too short.")) := by
  constructor
  · intro h
    simp only [generate_package, if_pos h]
  · intro hlen hcon
    rw [generate_package] at hcon
    rw [if_neg (by omega)] at hcon
    by_cases hprov : c.providerOk
    · rw [hprov] at hcon
      simp only [Bool.not_true, Bool.false_eq_true, if_false] at hcon
      split at hcon
      · exact PyErr.noConfusion (Except.error.inj hcon)
      · split at hcon <;> first
          | exact Except.noConfusion hcon
          | (split at hcon <;> exact Except.noConfusion hcon)
    · have : c.providerOk = false := by
        cases hcp : c.providerOk
        · rfl
        · exact absurd hcp hprov
      rw [this] at hcon
      simp only [Bool.not_false, if_true] at hcon
      have := PyErr.valueError.inj (Except.error.inj hcon)
      simp at this

/-- C5 witness: an idea of exactly 9 characters is rejected and one of
exactly 10 valid characters is not rejected by validation. -/
theorem C5_witness :
    generate_package tpl0 collabAllFail (mkReq "abcdefghi" none none)
        = .error (.valueError "Idea is too short.")
    ∧ generate_package tpl0 collabAllFail (mkReq "abcdefghij" none none)
        ≠ .error (.valueError "Idea is too short.") :=
  ⟨(C5_validation_gate tpl0 collabAllFail (mkReq "abcdefghi" none none)).1
      (by decide),
    (C5_validation_gate tpl0 collabAllFail (mkReq "abcdefghij" none none)).2
      (by decide)⟩

/-- C1 counterexample: with a valid request and every collaborator call
raising, the pipeline can still fail to return a result — when the
provider singleton cannot be constructed (`OPENAI_API_KEY` unset), a
`ValueError` that is not the validation failure escapes. -/
theorem C1_counterexample :
    generate_package tpl0
        { providerOk := false, refine := .error (), domainResp := .error (),
          product := .error () }
        (mkReq "an offline-capable notes app" none none)
      = .error (.valueError "OPENAI_API_KEY is not set.") := rfl

/-- C1 (amended): for a valid request, when the provider singleton is
constructible and every collaborator call raises on every invocation,
`generate_package` returns the procedural fallback record: plan, prompts
and docs all come from the procedural generators and are non-empty, and
no exception escapes. -/
theorem C1_procedural_fallback (tpl : Tpl) (c : Collab) (req : IdeaRequest)
    (hlen : 10 ≤ (pyStrip req.idea).length) (hprov : c.providerOk = true)
    (hr : c.refine = .error ()) (hd : c.domainResp = .error ())
    (hp : c.product = .error ()) :
    ∃ plan,
      build_implementation_plan
          (pySetUnion (detect_features (pyStrip req.idea))
            (detect_features (pyStrip req.idea)))
          (resolve_tool_and_stack req.tool
            (pySetUnion (detect_features (pyStrip req.idea))
              (detect_features (pyStrip req.idea)))).2
          (normalize_mode req.mode) none
          (resolve_tool_and_stack req.tool
            (pySetUnion (detect_features (pyStrip req.idea))
              (detect_features (pyStrip req.idea)))).1
        = .ok plan
      ∧ generate_package tpl c req = .ok (fallback_result (pyStrip req.idea) plan
          (resolve_tool_and_stack req.tool
            (pySetUnion (detect_features (pyStrip req.idea))
              (detect_features (pyStrip req.idea)))).2
          (build_prompt_pack tpl (pyStrip req.idea)
            (pySetUnion (detect_features (pyStrip req.idea))
              (detect_features (pyStrip req.idea)))
            (resolve_tool_and_stack req.tool
              (pySetUnion (detect_features (pyStrip req.idea))
                (detect_features (pyStrip req.idea)))).2
            req.target_users (some req.constraints) req.industry
            (normalize_mode req.mode) none
            (resolve_tool_and_stack req.tool
              (pySetUnion (detect_features (pyStrip req.idea))
                (detect_features (pyStrip req.idea)))).1)
          (build_doc_pack tpl (pyStrip req.idea)
            (pySetUnion (detect_features (pyStrip req.idea))
              (detect_features (pyStrip req.idea)))
            (resolve_tool_and_stack req.tool
              (pySetUnion (detect_features (pyStrip req.idea))
                (detect_features (pyStrip req.idea)))).2
            req.target_users (normalize_mode req.mode) none
            (resolve_tool_and_stack req.tool
              (pySetUnion (detect_features (pyStrip req.idea))
                (detect_features (pyStrip req.idea)))).1)
          (pySetUnion (detect_features (pyStrip req.idea))
            (detect_features (pyStrip req.idea))))
      ∧ plan ≠ []
      ∧ build_prompt_pack tpl (pyStrip req.idea)
          (pySetUnion (detect_features (pyStrip req.idea))
            (detect_features (pyStrip req.idea)))
          (resolve_tool_and_stack req.tool
            (pySetUnion (detect_features (pyStrip req.idea))
              (detect_features (pyStrip req.idea)))).2
          req.target_users (some req.constraints) req.industry
          (normalize_mode req.mode) none
          (resolve_tool_and_stack req.tool
            (pySetUnion (detect_features (pyStrip req.idea))
              (detect_features (pyStrip req.idea)))).1 ≠ []
      ∧ build_doc_pack tpl (pyStrip req.idea)
          (pySetUnion (detect_features (pyStrip req.idea))
            (detect_features (pyStrip req.idea)))
          (resolve_tool_and_stack req.tool
            (pySetUnion (detect_features (pyStrip req.idea))
              (detect_features (pyStrip req.idea)))).2
          req.target_users (normalize_mode req.mode) none
          (resolve_tool_and_stack req.tool
            (pySetUnion (detect_features (pyStrip req.idea))
              (detect_features (pyStrip req.idea)))).1 ≠ [] := by
  have hrefined : refine_idea c (pyStrip req.idea) = pyStrip req.idea := by
    simp [refine_idea, hr]
  have hdomain : analyze_domain c = none := by
    simp [analyze_domain, hd]
  have hpp : product_payload c = none := by
    simp [product_payload, hp]
  obtain ⟨plan, hplan, hne⟩ := build_implementation_plan_none
    (pySetUnion (detect_features (pyStrip req.idea))
      (detect_features (pyStrip req.idea)))
    (resolve_tool_and_stack req.tool
      (pySetUnion (detect_features (pyStrip req.idea))
        (detect_features (pyStrip req.idea)))).2
    (normalize_mode req.mode)
    (resolve_tool_and_stack req.tool
      (pySetUnion (detect_features (pyStrip req.idea))
        (detect_features (pyStrip req.idea)))).1
  refine ⟨plan, hplan, ?_, hne, build_prompt_pack_ne_nil _ _ _ _ _ _ _ _ _ _,
    build_doc_pack_ne_nil _ _ _ _ _ _ _ _⟩
  rw [generate_package]
  rw [if_neg (by omega)]
  rw [hprov]
  simp only [Bool.not_true, Bool.false_eq_true, if_false]
  rw [hrefined, hdomain, hpp, hplan]

/-- C1 witness: a concrete valid request with every collaborator raising
yields exactly the non-empty procedural fallback. -/
theorem C1_witness :
    (generate_package tpl0 collabAllFail
        (mkReq "an offline-capable notes app" none none)).map
        (fun r => ((match r.implementation_plan with
            | .arr es => !es.isEmpty
            | _ => false),
          !r.prompts.isEmpty, !r.docs.isEmpty))
      = .ok (true, true, true) := by
  obtain ⟨plan, hplan, hok, hne, hpne, hdne⟩ :=
    C1_procedural_fallback tpl0 collabAllFail
      (mkReq "an offline-capable notes app" none none)
      (by decide) rfl rfl rfl rfl
  rw [hok]
  simp only [Except.map, fallback_result, strPromptDict, Except.ok.injEq]
  simp [List.isEmpty_eq_false, List.map_eq_nil_iff, hne, hpne, hdne]

/-! ### C2: the plan-merge rule -/

/-- A product response whose `implementation_plan` is a ten-step list
(meeting the production threshold) but whose `prompts.product_requirements`
is a number, so `len()` raises during the prompt merge. -/
def c2payload : String :=
  "\x7b\"implementation_plan\": [\"a\",\"b\",\"c\",\"d\",\"e\",\"f\",\"g\",\"h\",\"i\",\"j\"], \"tech_stack\": 0, \"prompts\": \x7b\"product_requirements\": 5\x7d, \"docs\": 0\x7d"

def c2collab : Collab := { collabAllFail with product := .ok c2payload }

def c2req : IdeaRequest := mkReq "a product idea that works" none none

def c2aiplan : List Json :=
  [.str "a", .str "b", .str "c", .str "d", .str "e", .str "f", .str "g",
   .str "h", .str "i", .str "j"]

def c2fields : List (String × Json) :=
  [("implementation_plan", Json.arr c2aiplan),
   ("tech_stack", Json.num "0"),
   ("prompts", Json.obj [("product_requirements", Json.num "5")]),
   ("docs", Json.num "0")]

/-- C2 counterexample: a schema-valid payload whose AI plan is a list of
10 steps (meeting the production minimum of 10), yet the run's final
plan is the 30-step procedural plan — the prompt-merge raised on
`len(5)` and the whole merge was abandoned — so "final plan equals the
AI-sourced plan iff it is a list meeting the minimum" fails as stated. -/
theorem C2_counterexample :
    product_payload c2collab = some c2fields
    ∧ jGet c2fields "implementation_plan" = some (.arr c2aiplan)
    ∧ c2aiplan.length = 10
    ∧ min_plan_len (normalize_mode c2req.mode) = 10
    ∧ (generate_package tpl0 c2collab c2req).map
        (fun r => match r.implementation_plan with
          | .arr es => es.length
          | _ => 0) = .ok 30
    ∧ (30 : Nat) ≠ 10 := by
  exact ⟨rfl, rfl, rfl, rfl, rfl, by decide⟩

/-- C2 (amended): in the merge step — whenever the prompt-merge
comparison completes without raising — the final plan is the AI plan
exactly when that plan is a list whose length meets the mode's minimum
(5 for `"mvp"`, 10 otherwise); in every other case (fewer steps, wrong
type, missing key) it is the procedural plan; and every successful run
whose product payload validated carries either that choice or (when the
prompt merge raised) the procedural plan. -/
theorem C2_plan_merge_rule :
    (∀ (mode : String) (payload : List (String × Json)) (plan : List String)
        (es : List Json),
        jGet payload "implementation_plan" = some (.arr es) →
        min_plan_len mode ≤ es.length →
        final_plan_choice mode payload plan = .arr es)
    ∧ (∀ (mode : String) (payload : List (String × Json)) (plan : List String)
        (es : List Json),
        jGet payload "implementation_plan" = some (.arr es) →
        es.length < min_plan_len mode →
        final_plan_choice mode payload plan = .arr (plan.map .str))
    ∧ (∀ (mode : String) (payload : List (String × Json)) (plan : List String),
        (∀ es, jGet payload "implementation_plan" ≠ some (.arr es)) →
        final_plan_choice mode payload plan = .arr (plan.map .str))
    ∧ min_plan_len "mvp" = 5
    ∧ (∀ m, m ≠ "mvp" → min_plan_len m = 10)
    ∧ (∀ (tpl : Tpl) (c : Collab) (req : IdeaRequest) (r : GenerationResult)
        (payload : List (String × Json)),
        generate_package tpl c req = .ok r →
        product_payload c = some payload →
        ∃ plan,
          r.implementation_plan =
              final_plan_choice (normalize_mode req.mode) payload plan
          ∨ r.implementation_plan = .arr (plan.map .str)) := by
  refine ⟨?_, ?_, ?_, rfl, ?_, ?_⟩
  · intro mode payload plan es hj hlen
    unfold final_plan_choice
    rw [hj]
    dsimp only
    rw [if_pos hlen]
  · intro mode payload plan es hj hlen
    unfold final_plan_choice
    rw [hj]
    dsimp only
    rw [if_neg (by omega)]
  · intro mode payload plan hnone
    unfold final_plan_choice
    rcases hj : jGet payload "implementation_plan" with _ | v
    · rfl
    · cases v with
      | arr es => exact absurd hj (hnone es)
      | null => rfl
      | bool b => rfl
      | num t => rfl
      | str s => rfl
      | obj fs => rfl
  · intro m hm
    simp [min_plan_len, hm]
  · intro tpl c req r payload h hpp
    obtain ⟨-, -, plan, -, hcases⟩ := generate_package_ok tpl c req r h
    rcases hcases with ⟨hr, -⟩ | ⟨payload2, merged, hpp2, -, hr⟩
    · exact ⟨plan, Or.inr (by rw [hr]; rfl)⟩
    · have : payload2 = payload := Option.some.inj (hpp2.symm.trans hpp)
      subst this
      exact ⟨plan, Or.inl (by rw [hr]; rfl)⟩

/-- C2 witness: each merge case at a concrete input, and the thresholds. -/
theorem C2_witness :
    final_plan_choice "production" [("implementation_plan", Json.arr c2aiplan)]
        ["p"] = .arr c2aiplan
    ∧ final_plan_choice "mvp" [("implementation_plan", Json.arr [Json.str "x"])]
        ["p", "q"] = .arr [Json.str "p", Json.str "q"]
    ∧ final_plan_choice "production" [("implementation_plan", Json.str "not a list")]
        ["p"] = .arr [Json.str "p"]
    ∧ min_plan_len "mvp" = 5
    ∧ min_plan_len "production" = 10 := by
  refine ⟨C2_plan_merge_rule.1 "production" _ _ _ rfl (by decide),
    C2_plan_merge_rule.2.1 "mvp" _ _ _ rfl (by decide),
    C2_plan_merge_rule.2.2.1 "production" _ _ ?_,
    C2_plan_merge_rule.2.2.2.1,
    C2_plan_merge_rule.2.2.2.2.1 "production" (by decide)⟩
  intro es hcon
  have : Json.str "not a list" = Json.arr es := Option.some.inj hcon
  exact Json.noConfusion this

/-! ### C3: the prompt-merge frame -/

lemma find?_replace_ne (key k : String) (v : Json) (h : k ≠ key) :
    ∀ d : List (String × Json),
      List.find? (fun p => p.1 == k)
        (d.map (fun p => if p.1 = key then (key, v) else p))
      = List.find? (fun p => p.1 == k) d := by
  intro d
  induction d with
  | nil => rfl
  | cons a t ih =>
    have hkk : (key == k) = false := by
      simp only [beq_eq_false_iff_ne]
      exact fun hcon => h hcon.symm
    rw [List.map_cons]
    by_cases ha : a.1 = key
    · rw [if_pos ha]
      have h3 : (a.1 == k) = false := by rw [ha]; exact hkk
      simp only [List.find?, hkk, h3]
      exact ih
    · rw [if_neg ha]
      rcases hak : (a.1 == k) with _ | _
      · simp only [List.find?, hak]
        exact ih
      · simp only [List.find?, hak]

lemma jGet_pyDictSet_ne (d : List (String × Json)) (key k : String)
    (v : Json) (h : k ≠ key) : jGet (pyDictSet d key v) k = jGet d k := by
  unfold pyDictSet
  split
  · unfold jGet
    rw [find?_replace_ne key k v h d]
  · unfold jGet
    rw [List.find?_append]
    have hnone : List.find? (fun p => p.1 == k) [(key, v)] = none := by
      have hkk : (key == k) = false := by
        simp only [beq_eq_false_iff_ne]
        exact fun hcon => h hcon.symm
      simp [List.find?_cons, hkk]
    rw [hnone]
    simp

/-- The product response used against C3: schema-valid, `mvp` mode, and
a `prompts.product_requirements` value `[""]` — Python length 1, beating
the absent procedural entry's default `""` of length 0, although its
character count (0) is not greater. -/
def c3payload : String :=
  "\x7b\"implementation_plan\": 0, \"tech_stack\": 0, \"prompts\": \x7b\"product_requirements\": [\"\"]\x7d, \"docs\": 0\x7d"

def c3collab : Collab := { collabAllFail with product := .ok c3payload }

def c3req : IdeaRequest := mkReq "a product idea that works" (some "mvp") none

def c3fields : List (String × Json) :=
  [("implementation_plan", Json.num "0"),
   ("tech_stack", Json.num "0"),
   ("prompts", Json.obj [("product_requirements", Json.arr [Json.str ""])]),
   ("docs", Json.num "0")]

/-- C3 counterexample: in `mvp` mode the procedural prompt set has no
`product_requirements` entry (the fallback run's prompt keys show this),
yet the merged run *gains* one, holding the AI's `[""]` — an entry was
added, not replaced, and the accepted value has no more characters than
the procedural default — so "only the single product_requirements prompt
may be replaced, and only when strictly longer by character count" fails
as stated. -/
theorem C3_counterexample :
    product_payload c3collab = some c3fields
    ∧ (generate_package tpl0 collabAllFail c3req).map
        (fun r => (r.prompts.map Prod.fst).contains "product_requirements")
      = .ok false
    ∧ (generate_package tpl0 c3collab c3req).map
        (fun r => ((r.prompts.map Prod.fst).contains "product_requirements",
          jGet r.prompts "product_requirements"))
      = .ok (true, some (.arr [.str ""]))
    ∧ pyLen (Json.arr [Json.str ""]) = .ok 1
    ∧ pyLen (Json.str "") = .ok 0 := by
  exact ⟨rfl, rfl, rfl, rfl, rfl⟩

/-- C3 (amended): when the prompt merge completes, every key other than
`product_requirements` holds exactly the procedural value; the
`product_requirements` entry is replaced — or added, when the procedural
set lacks it, against the empty-string default — exactly when the AI
prompts value is a dict whose `product_requirements` has Python length
strictly greater than the procedural baseline's (character count when
both are strings); a non-dict AI prompts value leaves the set untouched.
And on every successful run the docs are the procedural docs and the
tech stack is the stack resolved before fan-out, never the AI's. -/
theorem C3_prompt_merge_frame :
    (∀ (procedural : List (String × String)) (payload : List (String × Json))
        (merged : List (String × Json)),
        merge_prompts procedural payload = .ok merged →
        (∀ k, k ≠ "product_requirements" →
          jGet merged k = jGet (strPromptDict procedural) k)
        ∧ (∀ fsLlm, jGet payload "prompts" = some (.obj fsLlm) →
            ∀ n b, pyLen (jGetD fsLlm "product_requirements" (.str "")) = .ok n →
              pyLen (jGetD (strPromptDict procedural) "product_requirements"
                (.str "")) = .ok b →
              ((b < n → merged = pyDictSet (strPromptDict procedural)
                  "product_requirements"
                  (jGetD fsLlm "product_requirements" (.str "")))
                ∧ (n ≤ b → merged = strPromptDict procedural)))
        ∧ ((∀ fsLlm, jGet payload "prompts" ≠ some (.obj fsLlm)) →
            merged = strPromptDict procedural))
    ∧ (∀ (tpl : Tpl) (c : Collab) (req : IdeaRequest) (r : GenerationResult),
        generate_package tpl c req = .ok r →
        r.tech_stack = (resolve_tool_and_stack req.tool
            (pySetUnion (detect_features (pyStrip req.idea))
              (detect_features (refine_idea c (pyStrip req.idea))))).2.to_dict
        ∧ r.docs = build_doc_pack tpl (refine_idea c (pyStrip req.idea))
            (pySetUnion (detect_features (pyStrip req.idea))
              (detect_features (refine_idea c (pyStrip req.idea))))
            (resolve_tool_and_stack req.tool
              (pySetUnion (detect_features (pyStrip req.idea))
                (detect_features (refine_idea c (pyStrip req.idea))))).2
            req.target_users (normalize_mode req.mode) (analyze_domain c)
            (resolve_tool_and_stack req.tool
              (pySetUnion (detect_features (pyStrip req.idea))
                (detect_features (refine_idea c (pyStrip req.idea))))).1) := by
  constructor
  · intro procedural payload merged hm
    unfold merge_prompts at hm
    rcases hj : jGet payload "prompts" with _ | v
    · rw [hj] at hm
      dsimp only at hm
      injection hm with hm2
      subst hm2
      refine ⟨fun k hk => rfl, ?_, fun _ => rfl⟩
      intro fsLlm hcon
      exact Option.noConfusion hcon
    · rw [hj] at hm
      cases v with
      | obj fsLlm =>
        dsimp only at hm
        rcases hn : pyLen (jGetD fsLlm "product_requirements" (.str ""))
          with e1 | n
        · rw [hn] at hm
          dsimp only at hm
          exact Except.noConfusion hm
        · rw [hn] at hm
          rcases hb : pyLen (jGetD (strPromptDict procedural)
              "product_requirements" (.str "")) with e2 | b
          · rw [hb] at hm
            exact Except.noConfusion hm
          · rw [hb] at hm
            dsimp only at hm
            injection hm with hm2
            constructor
            · intro k hk
              by_cases hbn : b < n
              · rw [if_pos hbn] at hm2
                subst hm2
                exact jGet_pyDictSet_ne _ _ _ _ hk
              · rw [if_neg hbn] at hm2
                subst hm2
                rfl
            constructor
            · intro fsLlm2 hj2 n2 b2 hn2 hb2
              have hfs : fsLlm2 = fsLlm := (Json.obj.inj (Option.some.inj hj2)).symm
              subst hfs
              have hnn : n2 = n := (Except.ok.inj (hn.symm.trans hn2)).symm
              have hbb : b2 = b := (Except.ok.inj hb2).symm
              subst hnn
              subst hbb
              constructor
              · intro hlt
                rw [if_pos hlt] at hm2
                exact hm2.symm
              · intro hle
                rw [if_neg (by omega)] at hm2
                exact hm2.symm
            · intro hnone
              exact absurd rfl (hnone fsLlm)
      | null =>
        dsimp only at hm
        injection hm with hm2
        subst hm2
        refine ⟨fun k hk => rfl, ?_, fun _ => rfl⟩
        intro fsLlm hcon
        exact Json.noConfusion (Option.some.inj hcon)
      | bool b =>
        dsimp only at hm
        injection hm with hm2
        subst hm2
        refine ⟨fun k hk => rfl, ?_, fun _ => rfl⟩
        intro fsLlm hcon
        exact Json.noConfusion (Option.some.inj hcon)
      | num t =>
        dsimp only at hm
        injection hm with hm2
        subst hm2
        refine ⟨fun k hk => rfl, ?_, fun _ => rfl⟩
        intro fsLlm hcon
        exact Json.noConfusion (Option.some.inj hcon)
      | str s =>
        dsimp only at hm
        injection hm with hm2
        subst hm2
        refine ⟨fun k hk => rfl, ?_, fun _ => rfl⟩
        intro fsLlm hcon
        exact Json.noConfusion (Option.some.inj hcon)
      | arr es =>
        dsimp only at hm
        injection hm with hm2
        subst hm2
        refine ⟨fun k hk => rfl, ?_, fun _ => rfl⟩
        intro fsLlm hcon
        exact Json.noConfusion (Option.some.inj hcon)
  · intro tpl c req r h
    obtain ⟨-, -, plan, -, hcases⟩ := generate_package_ok tpl c req r h
    rcases hcases with ⟨hr, -⟩ | ⟨payload, merged, -, -, hr⟩
    · subst hr; exact ⟨rfl, rfl⟩
    · subst hr; exact ⟨rfl, rfl⟩

/-- C3 witness: a concrete completed merge — frame on another key,
replacement exactly under the strictly-longer test — and the
docs/tech-stack facts on a concrete run. -/
theorem C3_witness :
    merge_prompts [("master_prompt", "m"), ("product_requirements", "ab")]
        [("prompts", Json.obj [("product_requirements", Json.str "abcd")])]
      = .ok [("master_prompt", Json.str "m"),
             ("product_requirements", Json.str "abcd")]
    ∧ jGet [("master_prompt", Json.str "m"),
        ("product_requirements", Json.str "abcd")] "master_prompt"
      = jGet (strPromptDict [("master_prompt", "m"),
          ("product_requirements", "ab")]) "master_prompt"
    ∧ (generate_package tpl0 collabAllFail
        (mkReq "a plain dashboard for sales data" none none)).map
        (fun r => decide (r.tech_stack = (resolve_tool_and_stack none
          (pySetUnion (detect_features (pyStrip "a plain dashboard for sales data"))
            (detect_features (refine_idea collabAllFail
              (pyStrip "a plain dashboard for sales data"))))).2.to_dict))
      = .ok true := by
  refine ⟨rfl, ?_, ?_⟩
  · exact (C3_prompt_merge_frame.1
      [("master_prompt", "m"), ("product_requirements", "ab")]
      [("prompts", Json.obj [("product_requirements", Json.str "abcd")])]
      _ rfl).1 "master_prompt" (by decide)
  · rcases h : generate_package tpl0 collabAllFail
        (mkReq "a plain dashboard for sales data" none none) with e | r
    · have hok : (generate_package tpl0 collabAllFail
          (mkReq "a plain dashboard for sales data" none none)).isOk = true := by
        decide
      rw [h] at hok
      exact Bool.noConfusion hok
    · have hts := (C3_prompt_merge_frame.2 tpl0 collabAllFail _ r h).1
      simp only [mkReq] at hts
      simp [Except.map, mkReq, hts]

/-! ### C4: domain-result acceptance -/

/-- A domain response that is valid JSON but not an object: a list
holding the two key strings. -/
def c4resp : String := "[\"entities\", \"api_endpoints\"]"

/-- C4 evaluation at the failing input: the non-object JSON value
`["entities", "api_endpoints"]` is *accepted* as the domain (Python's
`in` tests list membership, not dict keys), instead of being discarded
to `None`; downstream, the procedural plan builder then raises a
`TypeError` that escapes `generate_package`. -/
theorem C4_nondict_domain_accepted :
    analyze_domain { collabAllFail with domainResp := .ok c4resp }
      = some (.arr [.str "entities", .str "api_endpoints"])
    ∧ generate_package tpl0 { collabAllFail with domainResp := .ok c4resp }
        (mkReq "a library catalog manager" none none)
      = .error .typeError := by
  exact ⟨rfl, rfl⟩

end IdeaForge
